import Mathlib

/-!
The client of the Turso API: request validation and the request/response contract.

A shallow embedding of the Turso API client (`database.go`, `group.go`,
`database_tokens.go`, `organization.go`, `errors.go`, `client.go`) and of its
mock services (`test_tools.go`).

Go strings are modelled as Lean `String` values (sequences of Unicode scalar
values, that is, well-formed UTF-8 text).  Go's builtin `len` on a string is
the number of bytes of its UTF-8 encoding, `String.utf8ByteSize`; the number
of characters is `String.length`.  A Go `error` is `Option Error`, with
`none` for `nil`.
-/

namespace Turso

/-! ## errors.go -/

/-- The error values of the package: the four sentinel errors, the three
structured errors, and the errors that come from outside the package
(regexp compilation, JSON, the HTTP transport). -/
inductive Error where
  /-- Source: `ErrAPITokenNotSet` -/
  | ErrAPITokenNotSet
  /-- Source: `ErrInvalidDatabaseName` -/
  | ErrInvalidDatabaseName
  /-- Source: `ErrExpirationInvalid` -/
  | ErrExpirationInvalid
  /-- Source: `ErrAuthorizationInvalid` -/
  | ErrAuthorizationInvalid
  /-- Source: `&TursoError{Object, Method, Status}` -/
  | TursoError (Object Method : String) (Status : Int)
  /-- Source: `&MissingRequiredFieldError{RequiredField}` -/
  | MissingRequiredFieldError (RequiredField : String)
  /-- Source: `&InvalidFieldError{Field, Message}` -/
  | InvalidFieldError (Field Message : String)
  /-- an error produced by a collaborator outside the package -/
  | external (msg : String)
  deriving DecidableEq, Repr

/-- Source: `newBadRequestError` -/
def newBadRequestError (object method : String) (status : Int) : Error :=
  Error.TursoError object method status

/-- Source: `newMissingRequiredFieldError` -/
def newMissingRequiredFieldError (field : String) : Error :=
  Error.MissingRequiredFieldError field

/-- Source: `newInvalidFieldError` -/
def newInvalidFieldError (field message : String) : Error :=
  Error.InvalidFieldError field message

/-! ## Go builtins and the `strings` package -/

/-- Go's `len(s)` for a string: the number of bytes of `s`. -/
def len (s : String) : Nat := s.utf8ByteSize

/-- Source: `strings.HasPrefix` on character lists. -/
def hasPrefixChars : List Char → List Char → Bool
  | _, [] => true
  | [], _ :: _ => false
  | c :: cs, p :: ps => c == p && hasPrefixChars cs ps

/-- Substring search on character lists: does `sub` occur in `s` at some offset. -/
def containsChars : List Char → List Char → Bool
  | [], sub => hasPrefixChars [] sub
  | c :: cs, sub => hasPrefixChars (c :: cs) sub || containsChars cs sub

/-- Source: `strings.Contains(s, substr)` -/
def stringsContains (s substr : String) : Bool :=
  containsChars s.data substr.data

/-! ## The `regexp` package, for the fragment of the syntax used by `regexName` -/

/-- Regular expressions: the text anchors, a bracketed character class given
by its ranges, one-or-more repetition, and concatenation. -/
inductive Regexp where
  | beginText
  | endText
  | charClass (ranges : List (Char × Char))
  | plus (r : Regexp)
  | cat (rs : List Regexp)
  deriving Repr

/-- Parse the items of a bracketed class up to the closing bracket: `a-z` is a
range, a single character (also a `-` that does not stand between two
characters) is the range from itself to itself. -/
def parseClass : List Char → List (Char × Char) → Option (List (Char × Char) × List Char)
  | [], _ => none
  | ']' :: rest, acc => if acc.isEmpty then none else some (acc.reverse, rest)
  | lo :: '-' :: ']' :: rest, acc => some (((('-', '-') :: (lo, lo) :: acc)).reverse, rest)
  | lo :: '-' :: hi :: rest, acc =>
      if lo ≤ hi then parseClass rest ((lo, hi) :: acc) else none
  | c :: rest, acc => parseClass rest ((c, c) :: acc)

/-- Parse a sequence of pattern items; `fuel` bounds the number of items. -/
def parseItems : Nat → List Char → List Regexp → Except Error (List Regexp)
  | 0, _, _ => .error (.external "regexp: pattern too long")
  | _ + 1, [], acc => .ok acc.reverse
  | fuel + 1, '^' :: rest, acc => parseItems fuel rest (Regexp.beginText :: acc)
  | fuel + 1, '$' :: rest, acc => parseItems fuel rest (Regexp.endText :: acc)
  | fuel + 1, '+' :: rest, acc =>
      match acc with
      | [] => .error (.external "regexp: missing argument to repetition operator")
      | r :: acc => parseItems fuel rest (Regexp.plus r :: acc)
  | fuel + 1, '[' :: rest, acc =>
      match parseClass rest [] with
      | none => .error (.external "regexp: missing closing ]")
      | some (ranges, rest) => parseItems fuel rest (Regexp.charClass ranges :: acc)
  | fuel + 1, c :: rest, acc =>
      if c = '(' ∨ c = ')' ∨ c = '*' ∨ c = '?' ∨ c = '|' ∨ c = '\\' ∨ c = '.' ∨ c = '{' then
        .error (.external "regexp: unsupported syntax")
      else parseItems fuel rest (Regexp.charClass [(c, c)] :: acc)

/-- Source: `regexp.Compile` on the supported fragment. -/
def regexpCompile (pattern : String) : Except Error Regexp :=
  match parseItems (pattern.data.length + 1) pattern.data [] with
  | .error e => .error e
  | .ok rs => .ok (Regexp.cat rs)

/-- A position in the text being searched: the number of characters already
passed and the characters still ahead. -/
structure Cursor where
  passed : Nat
  ahead : List Char
  deriving DecidableEq, Repr

/-- Is `c` in one of the ranges of a class. -/
def inRanges (ranges : List (Char × Char)) (c : Char) : Bool :=
  ranges.any (fun r => decide (r.1 ≤ c) && decide (c ≤ r.2))

/-- One or more repetitions of a step, at most `fuel` of them. -/
def repeatEnds (step : Cursor → List Cursor) : Nat → Cursor → List Cursor
  | 0, _ => []
  | fuel + 1, p => (step p).flatMap (fun q => q :: repeatEnds step fuel q)

mutual
/-- All cursors at which a match of `r` that starts at `p` can end. -/
def Regexp.ends : Regexp → Cursor → List Cursor
  | .beginText, p => if p.passed = 0 then [p] else []
  | .endText, p => if p.ahead.isEmpty then [p] else []
  | .charClass ranges, p =>
      match p.ahead with
      | [] => []
      | c :: cs => if inRanges ranges c then [⟨p.passed + 1, cs⟩] else []
  | .plus r, p => repeatEnds r.ends (p.ahead.length + 1) p
  | .cat rs, p => Regexp.endsSeq rs p
/-- All cursors at which a match of the sequence `rs` that starts at `p` can end. -/
def Regexp.endsSeq : List Regexp → Cursor → List Cursor
  | [], p => [p]
  | r :: rs, p => (r.ends p).flatMap (fun q => Regexp.endsSeq rs q)
end

/-- Does `r` match somewhere in the text, the search starting at cursor `p`
and then at every later position. -/
def searchFrom (r : Regexp) : Nat → List Char → Bool
  | passed, [] => !(r.ends ⟨passed, []⟩).isEmpty
  | passed, c :: cs => !(r.ends ⟨passed, c :: cs⟩).isEmpty || searchFrom r (passed + 1) cs

/-- Source: `regexp.MatchString(pattern, s)`: compile the pattern, then report whether
`s` contains a match of it. -/
def regexpMatchString (pattern s : String) : Except Error Bool :=
  match regexpCompile pattern with
  | .error e => .error e
  | .ok re => .ok (searchFrom re 0 s.data)

/-! ## database.go -/

def maxNameLength : Nat := 32

def regexName : String := "^[a-z0-9-]+$"

/-- Source: `validateDatabaseName` -/
def validateDatabaseName (name : String) : Option Error :=
  match regexpMatchString regexName name with
  | .error err => some err
  | .ok «match» =>
    if !«match» then
      some Error.ErrInvalidDatabaseName
    else if len name > maxNameLength then
      some Error.ErrInvalidDatabaseName
    else
      none

/-- The compiled form of `regexName`. -/
def nameRanges : List (Char × Char) := [('a', 'z'), ('0', '9'), ('-', '-')]

/-! ## group.go -/

/-- Source: `CreateGroupRequest` -/
structure CreateGroupRequest where
  Extensions : String
  Location : String
  Name : String
  deriving DecidableEq, Repr

/-- Source: `GroupLocationRequest` -/
structure GroupLocationRequest where
  GroupName : String
  Location : String
  deriving DecidableEq, Repr

/-- Source: `validateGroupName` -/
def validateGroupName (groupName : String) : Option Error :=
  if groupName = "" then
    some (newMissingRequiredFieldError "name")
  else if stringsContains groupName " " then
    some (newInvalidFieldError "name" "spaces are not allowed")
  else
    none

/-- Source: `validateLocation` -/
def validateLocation (location : String) : Option Error :=
  if location = "" then
    some (newMissingRequiredFieldError "location")
  else if len location ≠ 3 then
    some (newInvalidFieldError "location" "must be 3 characters")
  else
    none

/-- Source: `validateGroupCreateRequest` -/
def validateGroupCreateRequest (req : CreateGroupRequest) : Option Error :=
  match validateGroupName req.Name with
  | some err => some err
  | none =>
    match validateLocation req.Location with
    | some err => some err
    | none => none

/-- Source: `validateLocationRequest` -/
def validateLocationRequest (req : GroupLocationRequest) : Option Error :=
  if req.GroupName = "" then
    some (newMissingRequiredFieldError "name")
  else if req.Location = "" then
    some (newMissingRequiredFieldError "location")
  else
    none

/-! ## database_tokens.go -/

def FullAccess : String := "full-access"

def ReadOnly : String := "read-only"

def DefaultExpiration : String := "never"

def validAuthorization : List String := [FullAccess, ReadOnly]

/-- Source: `Permissions` -/
structure Permissions where
  ReadAttachDatabase : List String
  deriving DecidableEq, Repr

/-- Source: `CreateDatabaseTokenRequest` -/
structure CreateDatabaseTokenRequest where
  DatabaseName : String
  Expiration : String
  Authorization : String
  AttachPermissions : Permissions
  deriving DecidableEq, Repr

/-- The loop of `isValidAuthorization` over the valid values. -/
def authorizationLoop (authorization : String) : List String → Bool
  | [] => false
  | v :: vs => if v = authorization then true else authorizationLoop authorization vs

/-- Source: `isValidAuthorization` -/
def isValidAuthorization (authorization : String) : Bool :=
  if authorization = "" then
    false
  else
    authorizationLoop authorization validAuthorization

/-- Source: `isValidExpiration`.  The parser of the library `go-str2duration` is a
parameter: `ParseDuration s` is the error that `str2duration.ParseDuration(s)`
returns (`none` for `nil`); the duration it returns is discarded by the
caller. -/
def isValidExpiration (ParseDuration : String → Option Error) (expiration : String) : Bool :=
  if expiration = "" then
    false
  else if expiration = DefaultExpiration then
    true
  else
    match ParseDuration expiration with
    | some _ => false
    | none => true

/-- Source: `validateDatabaseTokenRequest` -/
def validateDatabaseTokenRequest (ParseDuration : String → Option Error)
    (req : CreateDatabaseTokenRequest) : Option Error :=
  if !isValidExpiration ParseDuration req.Expiration then
    some Error.ErrExpirationInvalid
  else if !isValidAuthorization req.Authorization then
    some Error.ErrAuthorizationInvalid
  else
    none

/-! ## The duration parser of `go-str2duration` -/

/-- The unit suffixes of a duration. -/
def durationUnits : List String :=
  ["ns", "us", "µs", "μs", "ms", "s", "m", "h", "d", "w"]

/-- Is `c` one of `0` to `9`. -/
def isDigitChar (c : Char) : Bool := decide ('0' ≤ c) && decide (c ≤ '9')

/-- Is `c` a digit or the decimal point, the characters that end a unit. -/
def isNumberChar (c : Char) : Bool := c == '.' || isDigitChar c

/-- The groups `[0-9]*(\.[0-9]*)?unit` of a duration, one after the other
until the text is used up.  Every group takes at least one character, so
`fuel` need not exceed the length of the text. -/
def parseDurationGroups : Nat → List Char → Bool
  | _, [] => true
  | 0, _ :: _ => false
  | fuel + 1, c :: cs =>
    if !isNumberChar c then false
    else
      let s := c :: cs
      let afterInt := s.dropWhile isDigitChar
      let pre := afterInt.length != s.length
      let frac : Bool × List Char :=
        match afterInt with
        | '.' :: t => ((t.dropWhile isDigitChar).length != t.length, t.dropWhile isDigitChar)
        | _ => (false, afterInt)
      if !pre && !frac.1 then false
      else
        let unit := frac.2.takeWhile (fun c => !isNumberChar c)
        if unit.isEmpty then false
        else if !durationUnits.contains (String.mk unit) then false
        else parseDurationGroups fuel (frac.2.dropWhile (fun c => !isNumberChar c))

/-- Modelled from the spec: `str2duration.ParseDuration` of the library
`github.com/xhit/go-str2duration/v2`, which is not part of the repository.
The spec describes the accepted strings as relative duration expressions made
of compound units such as weeks, days, hours and minutes (`12w`, `1h30m`);
the model accepts an optional sign followed by `0` alone or by one or more
groups of a decimal number and a unit out of `durationUnits`.  The result is
the error of the parse, `none` when the string is accepted; the magnitude of
the duration is not modelled. -/
def str2durationParseDuration (s : String) : Option Error :=
  let body : List Char :=
    match s.data with
    | '-' :: t => t
    | '+' :: t => t
    | l => l
  if body = ['0'] then none
  else if body = [] then some (Error.external "time: invalid duration")
  else if parseDurationGroups body.length body then none
  else some (Error.external "time: invalid duration")

/-! ## `fmt.Sprintf` -/

/-- An operand of `fmt.Sprintf`: a string or an integer. -/
inductive FmtArg where
  | str (s : String)
  | int (i : Int)
  deriving DecidableEq, Repr

/-- The text `fmt` prints for operands left over after the format is used up. -/
def fmtExtra (args : List FmtArg) : List Char :=
  "%!(EXTRA ".data ++
    (String.intercalate ", " (args.map (fun a =>
      match a with
      | .str s => "string=" ++ s
      | .int i => "int=" ++ toString i))).data ++ ")".data

/-- Source: `fmt.Sprintf` for formats with the verbs `%s` and `%d`. -/
def sprintfChars : List Char → List FmtArg → List Char
  | [], [] => []
  | [], a :: args => fmtExtra (a :: args)
  | '%' :: 's' :: rest, .str s :: args => s.data ++ sprintfChars rest args
  | '%' :: 's' :: rest, .int i :: args =>
      ("%!s(int=" ++ toString i ++ ")").data ++ sprintfChars rest args
  | '%' :: 's' :: rest, [] => "%!s(MISSING)".data ++ sprintfChars rest []
  | '%' :: 'd' :: rest, .int i :: args => (toString i).data ++ sprintfChars rest args
  | '%' :: 'd' :: rest, .str s :: args =>
      ("%!d(string=" ++ s ++ ")").data ++ sprintfChars rest args
  | '%' :: 'd' :: rest, [] => "%!d(MISSING)".data ++ sprintfChars rest []
  | c :: rest, args => c :: sprintfChars rest args

/-- Source: `fmt.Sprintf(format, args...)` -/
def Sprintf (format : String) (args : List FmtArg) : String :=
  String.mk (sprintfChars format.data args)

/-! ## errors.go: the messages -/

set_option linter.dupNamespace false in
/-- The `Error()` method of each error value: the text given to `errors.New`
for the four sentinel errors and the `fmt.Sprintf` of the carried fields for
the three structured errors. -/
def Error.Error : Error → String
  | .ErrAPITokenNotSet => "api token not set, but required"
  | .ErrInvalidDatabaseName =>
      "invalid database name, can only contain lowercase letters, numbers, dashes with a maximum of 32 characters"
  | .ErrExpirationInvalid => "expiration invalid, must be a valid duration (e.g. 12w) or never"
  | .ErrAuthorizationInvalid =>
      "authorization invalid, valid options are full-access or read-only"
  | .TursoError object method status =>
      Sprintf "error %s %s: %d" [.str method, .str object, .int status]
  | .MissingRequiredFieldError requiredField => Sprintf "%s is required" [.str requiredField]
  | .InvalidFieldError field message =>
      Sprintf "%s is invalid, %s" [.str field, .str message]
  | .external msg => msg

/-! ## client.go -/

/-- Source: `Config` -/
structure Config where
  Token : String
  BaseURL : String
  OrgName : String
  deriving DecidableEq, Repr

/-- An `http.Request` as far as the client fills it in: method, URL, headers
(each key with its values in the order they were added) and the bytes of the
body. -/
structure HttpRequest where
  Method : String
  URL : String
  Header : List (String × List String)
  Body : String
  deriving DecidableEq, Repr

/-- An `http.Response` as far as the client reads it. -/
structure HttpResponse where
  StatusCode : Int
  Body : String
  deriving DecidableEq, Repr

/-- Source: `http.Header.Add` for a key that is already in canonical form, as
`Authorization` and `Content-Type` are. -/
def headerAdd : List (String × List String) → String → String → List (String × List String)
  | [], key, value => [(key, [value])]
  | (k, vs) :: rest, key, value =>
      if k = key then (k, vs ++ [value]) :: rest else (k, vs) :: headerAdd rest key value

/-- Source: `CreateDatabaseRequest` -/
structure CreateDatabaseRequest where
  Group : String
  IsSchema : Bool
  Name : String
  deriving DecidableEq, Repr

/-- The values passed as `data interface{}` to `DoRequest`. -/
inductive Payload where
  | nil
  | createDatabase (req : CreateDatabaseRequest)
  | createGroup (req : CreateGroupRequest)
  | createDatabaseToken (req : CreateDatabaseTokenRequest)
  deriving DecidableEq, Repr

/-- Source: `CreateDatabase`, the database of a create response. -/
structure CreateDatabase where
  DatabaseID : String
  Name : String
  Hostname : String
  IssuedCertCount : Int
  IssuedCertLimit : Int
  deriving DecidableEq, Repr

/-- Source: `CreateDatabaseResponse` -/
structure CreateDatabaseResponse where
  Database : CreateDatabase
  deriving DecidableEq, Repr

/-- Source: `Group` -/
structure Group where
  Archived : Bool
  Locations : List String
  Name : String
  Primary : String
  UUID : String
  Version : String
  deriving DecidableEq, Repr

/-- Source: `CreateGroupResponse` -/
structure CreateGroupResponse where
  Group : Group
  deriving DecidableEq, Repr

/-- Source: `GroupLocationResponse` -/
structure GroupLocationResponse where
  Group : Group
  deriving DecidableEq, Repr

/-- Source: `CreateDatabaseTokenResponse` -/
structure CreateDatabaseTokenResponse where
  JWT : String
  deriving DecidableEq, Repr

/-- Source: `Organization` -/
structure Organization where
  Name : String
  Slug : String
  «Type» : String
  PlanID : String
  Overages : Bool
  BlockedReads : Bool
  BlockedWrites : Bool
  PlanTimeline : String
  Memory : Int
  deriving DecidableEq, Repr

/-- Source: `Database` -/
structure Database where
  Name : String
  DatabaseID : String
  Hostname : String
  IsSchema : Bool
  Schema : String
  BlockReads : Bool
  BlockWrites : Bool
  AllowAttach : Bool
  Regions : List String
  PrimaryRegion : String
  «Type» : String
  Version : String
  Group : String
  Sleeping : Bool
  deriving DecidableEq, Repr

/-- Source: `ListDatabaseResponse`, a slice of pointers to databases. -/
structure ListDatabaseResponse where
  Databases : List (Option Database)
  deriving DecidableEq, Repr

/-- Source: `GetDatabaseResponse`, a pointer to a database. -/
structure GetDatabaseResponse where
  Database : Option Database
  deriving DecidableEq, Repr

/-- Source: `DeleteDatabaseResponse` -/
structure DeleteDatabaseResponse where
  Database : String
  deriving DecidableEq, Repr

/-- Source: `ListGroupResponse` -/
structure ListGroupResponse where
  Groups : List Group
  deriving DecidableEq, Repr

/-- Source: `GetGroupResponse` -/
structure GetGroupResponse where
  Group : Group
  deriving DecidableEq, Repr

/-- Source: `DeleteGroupResponse` -/
structure DeleteGroupResponse where
  Group : Group
  deriving DecidableEq, Repr

/-- The packages the client calls: `encoding/json`, `net/http` and
`go-str2duration`. -/
structure Externals where
  /-- Source: `json.Marshal(data)` -/
  Marshal : Payload → Except Error String
  /-- the error of `http.NewRequestWithContext` for a method and a URL, if it
  rejects them -/
  NewRequestError : String → String → Option Error
  /-- the error of `str2duration.ParseDuration` -/
  ParseDuration : String → Option Error
  /-- Source: `json.NewDecoder(body).Decode(&out)` for `out` a `CreateDatabaseResponse` -/
  DecodeCreateDatabaseResponse : String → Except Error CreateDatabaseResponse
  /-- the same for `out` a `CreateGroupResponse` -/
  DecodeCreateGroupResponse : String → Except Error CreateGroupResponse
  /-- the same for `out` a `GroupLocationResponse` -/
  DecodeGroupLocationResponse : String → Except Error GroupLocationResponse
  /-- the same for `out` a `CreateDatabaseTokenResponse` -/
  DecodeCreateDatabaseTokenResponse : String → Except Error CreateDatabaseTokenResponse
  /-- the same for `out` a slice of `Organization` -/
  DecodeOrganizations : String → Except Error (List Organization)
  /-- the same for `out` a `ListDatabaseResponse` -/
  DecodeListDatabaseResponse : String → Except Error ListDatabaseResponse
  /-- the same for `out` a pointer to a `GetDatabaseResponse`, which the decoder
  may leave nil -/
  DecodeGetDatabaseResponse : String → Except Error (Option GetDatabaseResponse)
  /-- the same for `out` a `DeleteDatabaseResponse` -/
  DecodeDeleteDatabaseResponse : String → Except Error DeleteDatabaseResponse
  /-- the same for `out` a `ListGroupResponse` -/
  DecodeListGroupResponse : String → Except Error ListGroupResponse
  /-- the same for `out` a pointer to a `GetGroupResponse`, which the decoder
  may leave nil -/
  DecodeGetGroupResponse : String → Except Error (Option GetGroupResponse)
  /-- the same for `out` a `DeleteGroupResponse` -/
  DecodeDeleteGroupResponse : String → Except Error DeleteGroupResponse

/-- Source: `Client`: the configuration and the transport, `HTTPRequestDoer.Do`, which
returns a response pointer and an error. -/
structure Client where
  cfg : Config
  client : HttpRequest → Option HttpResponse × Option Error

/-- What a call leaves behind: its result and the requests it handed to the
transport, in order. -/
structure Run (α : Type) where
  result : α
  sent : List HttpRequest

/-- The result of an operation: the pair `(response, error)` it returns, or a
run-time panic. -/
inductive Outcome (α : Type) where
  | returned (resp : Option α) (err : Option Error)
  | panicked

/-- Source: `http.NewRequestWithContext(ctx, method, url, body)` with a non-nil
context: an empty method stands for `GET`. -/
def NewRequestWithContext (ext : Externals) (method url body : String) :
    Except Error HttpRequest :=
  match ext.NewRequestError method url with
  | some err => .error err
  | none => .ok ⟨if method = "" then "GET" else method, url, [], body⟩

/-- Source: `Client.DoRequest` -/
def Client.DoRequest (ext : Externals) (c : Client) (method url : String) (data : Payload) :
    Run (Option HttpResponse × Option Error) :=
  match ext.Marshal data with
  | .error err => ⟨(none, some err), []⟩
  | .ok buf =>
    match NewRequestWithContext ext method url buf with
    | .error err => ⟨(none, some err), []⟩
    | .ok req =>
      let req := { req with Header := headerAdd req.Header "Authorization" ("Bearer " ++ c.cfg.Token) }
      let req := { req with Header := headerAdd req.Header "Content-Type" "application/json" }
      ⟨c.client req, [req]⟩

/-- The part every operation shares after `DoRequest`: return the error of the
request; read the body of the response (a nil response panics); decode it;
turn every status but 200 into a `TursoError`. -/
def finish {α : Type} (decode : String → Except Error α) (object method : String)
    (r : Run (Option HttpResponse × Option Error)) : Run (Outcome α) :=
  match r.result with
  | (_, some err) => ⟨.returned none (some err), r.sent⟩
  | (none, none) => ⟨.panicked, r.sent⟩
  | (some resp, none) =>
    match decode resp.Body with
    | .error err => ⟨.returned none (some err), r.sent⟩
    | .ok out =>
      if resp.StatusCode ≠ 200 then
        ⟨.returned none (some (newBadRequestError object method resp.StatusCode)), r.sent⟩
      else
        ⟨.returned (some out) none, r.sent⟩

/-! ## The operations with a validated request -/

def databaseEndpoint : String := "v1/organizations/%s/databases"

def groupEndpoint : String := "v1/organizations/%s/groups"

def locationEndpoint : String := groupEndpoint ++ "%s/locations/%s"

def databaseTokensEndpoint : String := "v1/organizations/%s/databases/%s/auth/tokens"

/-- Source: `getDatabaseEndpoint` -/
def getDatabaseEndpoint (baseURL orgName : String) : String :=
  let dbEndpoint := Sprintf databaseEndpoint [.str orgName]
  Sprintf "%s/%s" [.str baseURL, .str dbEndpoint]

/-- Source: `getGroupEndpoint` -/
def getGroupEndpoint (baseURL orgName : String) : String :=
  let groupEndpoint := Sprintf groupEndpoint [.str orgName]
  Sprintf "%s/%s" [.str baseURL, .str groupEndpoint]

/-- Source: `getGroupLocationsEndpoint` -/
def getGroupLocationsEndpoint (baseURL orgName groupName locationName : String) : String :=
  let locEndpoint := Sprintf locationEndpoint [.str orgName, .str groupName, .str locationName]
  Sprintf "%s/%s" [.str baseURL, .str locEndpoint]

/-- Source: `getDatabaseTokensEndpoint` -/
def getDatabaseTokensEndpoint (baseURL orgName dbName : String) : String :=
  let dbEndpoint := Sprintf databaseTokensEndpoint [.str orgName, .str dbName]
  Sprintf "%s/%s" [.str baseURL, .str dbEndpoint]

/-- Source: `DatabaseService.CreateDatabase` -/
def DatabaseService.CreateDatabase (ext : Externals) (c : Client) (db : CreateDatabaseRequest) :
    Run (Outcome CreateDatabaseResponse) :=
  match validateDatabaseName db.Name with
  | some err => ⟨.returned none (some err), []⟩
  | none =>
    let endpoint := getDatabaseEndpoint c.cfg.BaseURL c.cfg.OrgName
    finish ext.DecodeCreateDatabaseResponse "database" "creating"
      (c.DoRequest ext "POST" endpoint (.createDatabase db))

/-- Source: `GroupService.CreateGroup` -/
def GroupService.CreateGroup (ext : Externals) (c : Client) (group : CreateGroupRequest) :
    Run (Outcome CreateGroupResponse) :=
  match validateGroupCreateRequest group with
  | some err => ⟨.returned none (some err), []⟩
  | none =>
    let endpoint := getGroupEndpoint c.cfg.BaseURL c.cfg.OrgName
    finish ext.DecodeCreateGroupResponse "group" "creating"
      (c.DoRequest ext "POST" endpoint (.createGroup group))

/-- Source: `GroupService.AddLocation` -/
def GroupService.AddLocation (ext : Externals) (c : Client) (req : GroupLocationRequest) :
    Run (Outcome GroupLocationResponse) :=
  match validateLocationRequest req with
  | some err => ⟨.returned none (some err), []⟩
  | none =>
    let endpoint :=
      getGroupLocationsEndpoint c.cfg.BaseURL c.cfg.OrgName req.GroupName req.Location
    finish ext.DecodeGroupLocationResponse "group" "creating"
      (c.DoRequest ext "POST" endpoint .nil)

/-- Source: `GroupService.RemoveLocation` -/
def GroupService.RemoveLocation (ext : Externals) (c : Client) (req : GroupLocationRequest) :
    Run (Outcome GroupLocationResponse) :=
  match validateLocationRequest req with
  | some err => ⟨.returned none (some err), []⟩
  | none =>
    let endpoint :=
      getGroupLocationsEndpoint c.cfg.BaseURL c.cfg.OrgName req.GroupName req.Location
    finish ext.DecodeGroupLocationResponse "group" "creating"
      (c.DoRequest ext "DELETE" endpoint .nil)

/-- Source: `DatabaseTokensService.CreateDatabaseToken` -/
def DatabaseTokensService.CreateDatabaseToken (ext : Externals) (c : Client) (req : CreateDatabaseTokenRequest) :
    Run (Outcome CreateDatabaseTokenResponse) :=
  match validateDatabaseTokenRequest ext.ParseDuration req with
  | some err => ⟨.returned none (some err), []⟩
  | none =>
    let endpoint := getDatabaseTokensEndpoint c.cfg.BaseURL c.cfg.OrgName req.DatabaseName
    let endpoint := Sprintf "%s?expiration=%s&authorization=%s"
      [.str endpoint, .str req.Expiration, .str req.Authorization]
    finish ext.DecodeCreateDatabaseTokenResponse "database token" "creating"
      (c.DoRequest ext "POST" endpoint (.createDatabaseToken req))

/-! ## The operations without validation -/

/-- The shared part of `GetDatabase` and `GetGroup`, which decode into a
pointer and return that pointer: as `finish`, but the decoded value may be
nil. -/
def finishPointer {α : Type} (decode : String → Except Error (Option α))
    (object method : String) (r : Run (Option HttpResponse × Option Error)) :
    Run (Outcome α) :=
  match r.result with
  | (_, some err) => ⟨.returned none (some err), r.sent⟩
  | (none, none) => ⟨.panicked, r.sent⟩
  | (some resp, none) =>
    match decode resp.Body with
    | .error err => ⟨.returned none (some err), r.sent⟩
    | .ok out =>
      if resp.StatusCode ≠ 200 then
        ⟨.returned none (some (newBadRequestError object method resp.StatusCode)), r.sent⟩
      else
        ⟨.returned out none, r.sent⟩

def organizationEndpoint : String := "v1/organizations"

/-- Source: `getOrganizationEndpoint` -/
def getOrganizationEndpoint (baseURL : String) : String :=
  Sprintf "%s/%s" [.str baseURL, .str organizationEndpoint]

/-- Source: `OrganizationService.ListOrganizations` -/
def OrganizationService.ListOrganizations (ext : Externals) (c : Client) :
    Run (Outcome (List Organization)) :=
  let endpoint := getOrganizationEndpoint c.cfg.BaseURL
  finish ext.DecodeOrganizations "organizations" "listing"
    (c.DoRequest ext "GET" endpoint .nil)

/-- Source: `DatabaseService.ListDatabases` -/
def DatabaseService.ListDatabases (ext : Externals) (c : Client) :
    Run (Outcome ListDatabaseResponse) :=
  let endpoint := getDatabaseEndpoint c.cfg.BaseURL c.cfg.OrgName
  finish ext.DecodeListDatabaseResponse "databases" "listing"
    (c.DoRequest ext "GET" endpoint .nil)

/-- Source: `DatabaseService.GetDatabase` -/
def DatabaseService.GetDatabase (ext : Externals) (c : Client) (dbName : String) :
    Run (Outcome GetDatabaseResponse) :=
  let endpoint := getDatabaseEndpoint c.cfg.BaseURL c.cfg.OrgName
  let endpoint := Sprintf "%s/%s" [.str endpoint, .str dbName]
  finishPointer ext.DecodeGetDatabaseResponse "database" "getting"
    (c.DoRequest ext "GET" endpoint .nil)

/-- Source: `DatabaseService.DeleteDatabase` -/
def DatabaseService.DeleteDatabase (ext : Externals) (c : Client) (dbName : String) :
    Run (Outcome DeleteDatabaseResponse) :=
  let endpoint := getDatabaseEndpoint c.cfg.BaseURL c.cfg.OrgName
  let endpoint := Sprintf "%s/%s" [.str endpoint, .str dbName]
  finish ext.DecodeDeleteDatabaseResponse "database" "deleting"
    (c.DoRequest ext "DELETE" endpoint .nil)

/-- Source: `GroupService.ListGroups` -/
def GroupService.ListGroups (ext : Externals) (c : Client) :
    Run (Outcome ListGroupResponse) :=
  let endpoint := getGroupEndpoint c.cfg.BaseURL c.cfg.OrgName
  finish ext.DecodeListGroupResponse "groups" "listing"
    (c.DoRequest ext "GET" endpoint .nil)

/-- Source: `GroupService.GetGroup` -/
def GroupService.GetGroup (ext : Externals) (c : Client) (groupName : String) :
    Run (Outcome GetGroupResponse) :=
  let endpoint := getGroupEndpoint c.cfg.BaseURL c.cfg.OrgName
  let endpoint := Sprintf "%s/%s" [.str endpoint, .str groupName]
  finishPointer ext.DecodeGetGroupResponse "group" "getting"
    (c.DoRequest ext "GET" endpoint .nil)

/-- Source: `GroupService.DeleteGroup` -/
def GroupService.DeleteGroup (ext : Externals) (c : Client) (groupName : String) :
    Run (Outcome DeleteGroupResponse) :=
  let endpoint := getGroupEndpoint c.cfg.BaseURL c.cfg.OrgName
  let endpoint := Sprintf "%s/%s" [.str endpoint, .str groupName]
  finish ext.DecodeDeleteGroupResponse "group" "deleting"
    (c.DoRequest ext "DELETE" endpoint .nil)

/-- Source: `NewClient`.  The transport of a new client is `http.DefaultClient`,
given here as `DefaultClient`. -/
def NewClient (DefaultClient : HttpRequest → Option HttpResponse × Option Error)
    (c : Config) : Option Client × Option Error :=
  if c.Token = "" then
    (none, some Error.ErrAPITokenNotSet)
  else
    (some ⟨c, DefaultClient⟩, none)

/-! ## test_tools.go -/

/-- Source: `MockHTTPRequestDoer.Do`: the stored response and error, for every request. -/
def MockHTTPRequestDoer.Do (Response : Option HttpResponse) (Err : Option Error) :
    HttpRequest → Option HttpResponse × Option Error :=
  fun _ => (Response, Err)

/-- A serializer that does for the nil value what `json.Marshal` of
`encoding/json` does, giving the JSON value `null`, and that stands for the
serialization of every request value by an empty object. -/
def marshalNullOrObject : Payload → Except Error String
  | .nil => .ok "null"
  | _ => .ok "{}"

/-- Collaborators for which serialization succeeds as `marshalNullOrObject`
has it, every method and URL is accepted, no duration parses and no body
decodes. -/
def strictExternals : Externals where
  Marshal := marshalNullOrObject
  NewRequestError := fun _ _ => none
  ParseDuration := fun _ => some (Error.external "time: invalid duration")
  DecodeCreateDatabaseResponse := fun _ => .error (Error.external "EOF")
  DecodeCreateGroupResponse := fun _ => .error (Error.external "EOF")
  DecodeGroupLocationResponse := fun _ => .error (Error.external "EOF")
  DecodeCreateDatabaseTokenResponse := fun _ => .error (Error.external "EOF")
  DecodeOrganizations := fun _ => .error (Error.external "EOF")
  DecodeListDatabaseResponse := fun _ => .error (Error.external "EOF")
  DecodeGetDatabaseResponse := fun _ => .error (Error.external "EOF")
  DecodeDeleteDatabaseResponse := fun _ => .error (Error.external "EOF")
  DecodeListGroupResponse := fun _ => .error (Error.external "EOF")
  DecodeGetGroupResponse := fun _ => .error (Error.external "EOF")
  DecodeDeleteGroupResponse := fun _ => .error (Error.external "EOF")

/-- The zero value of `Group`. -/
def Group.zero : Group := ⟨false, [], "", "", "", ""⟩

/-- Collaborators for which serialization succeeds as `marshalNullOrObject`
has it, every method and URL is accepted, durations are parsed as the library
does, and every body decodes to the zero value of the response, as the body
of an empty object does. -/
def zeroExternals : Externals where
  Marshal := marshalNullOrObject
  NewRequestError := fun _ _ => none
  ParseDuration := str2durationParseDuration
  DecodeCreateDatabaseResponse := fun _ => .ok ⟨⟨"", "", "", 0, 0⟩⟩
  DecodeCreateGroupResponse := fun _ => .ok ⟨Group.zero⟩
  DecodeGroupLocationResponse := fun _ => .ok ⟨Group.zero⟩
  DecodeCreateDatabaseTokenResponse := fun _ => .ok ⟨""⟩
  DecodeOrganizations := fun _ => .ok []
  DecodeListDatabaseResponse := fun _ => .ok ⟨[]⟩
  DecodeGetDatabaseResponse := fun _ => .ok (some ⟨none⟩)
  DecodeDeleteDatabaseResponse := fun _ => .ok ⟨""⟩
  DecodeListGroupResponse := fun _ => .ok ⟨[]⟩
  DecodeGetGroupResponse := fun _ => .ok (some ⟨Group.zero⟩)
  DecodeDeleteGroupResponse := fun _ => .ok ⟨Group.zero⟩

/-! ## test_tools.go: the mock services -/

/-- Source: `MockGroupService` -/
structure MockGroupService where
  ListGroupResponse : Option ListGroupResponse
  CreateGroupResponse : Option CreateGroupResponse
  GetGroupResponse : Option GetGroupResponse
  DeleteGroupResponse : Option DeleteGroupResponse
  GroupLocationResponse : Option GroupLocationResponse
  Error : Option Error
  deriving DecidableEq, Repr

/-- Source: `MockDatabaseService` -/
structure MockDatabaseService where
  ListDatabaseResponse : Option ListDatabaseResponse
  CreateDatabaseResponse : Option CreateDatabaseResponse
  GetDatabaseResponse : Option GetDatabaseResponse
  DeleteDatabaseResponse : Option DeleteDatabaseResponse
  Error : Option Error
  deriving DecidableEq, Repr

/-- Source: `MockDatabaseTokensService` -/
structure MockDatabaseTokensService where
  CreateDatabaseTokenResponse : Option CreateDatabaseTokenResponse
  Error : Option Error
  deriving DecidableEq, Repr

/-- Source: `MockOrganizationService` -/
structure MockOrganizationService where
  ListOrganizationsResponse : Option (List Organization)
  Error : Option Error
  deriving DecidableEq, Repr

/-- The group of the mock responses, but for its name and whether it is
archived. -/
def mockGroup (archived : Bool) (name : String) : Group :=
  { Archived := archived
    Locations := ["lhr", "ams", "bos"]
    Name := name
    Primary := "lhr"
    UUID := "0a28102d-6906-11ee-8553-eaa7715aeaf2"
    Version := "v0.23.7" }

/-- Source: `newMockGroupService` -/
def newMockGroupService : MockGroupService :=
  { ListGroupResponse := some ⟨[mockGroup false "meow"]⟩
    CreateGroupResponse := some ⟨mockGroup false "meow"⟩
    GetGroupResponse := some ⟨mockGroup false "meow"⟩
    DeleteGroupResponse := some ⟨mockGroup true "woof"⟩
    GroupLocationResponse := some ⟨mockGroup false "meow"⟩
    Error := none }

/-- The database of the mock responses: name, host name and identifier are
set, the other fields have their zero values. -/
def mockDatabase : Database :=
  { Name := "my-db"
    DatabaseID := "0eb771dd-6906-11ee-8553-eaa7715aeaf2"
    Hostname := "[databaseName]-[organizationName].turso.io"
    IsSchema := false
    Schema := ""
    BlockReads := false
    BlockWrites := false
    AllowAttach := false
    Regions := []
    PrimaryRegion := ""
    «Type» := ""
    Version := ""
    Group := ""
    Sleeping := false }

/-- Source: `newMockDatabaseService` -/
def newMockDatabaseService : MockDatabaseService :=
  { ListDatabaseResponse := some ⟨[some mockDatabase]⟩
    CreateDatabaseResponse :=
      some ⟨{ DatabaseID := "0eb771dd-6906-11ee-8553-eaa7715aeaf2"
              Name := "my-db"
              Hostname := "[databaseName]-[organizationName].turso.io"
              IssuedCertCount := 0
              IssuedCertLimit := 0 }⟩
    GetDatabaseResponse := some ⟨some mockDatabase⟩
    DeleteDatabaseResponse := some ⟨"my-db"⟩
    Error := none }

/-- Source: `newMockOrganizationService` -/
def newMockOrganizationService : MockOrganizationService :=
  { ListOrganizationsResponse :=
      some [{ Name := "meow", Slug := "meow", «Type» := "", PlanID := "", Overages := false,
              BlockedReads := false, BlockedWrites := false, PlanTimeline := "", Memory := 0 }]
    Error := none }

/-- Source: `newMockDatabaseTokenService` -/
def newMockDatabaseTokenService : MockDatabaseTokensService :=
  { CreateDatabaseTokenResponse := some ⟨"jwt-token"⟩
    Error := none }

/-- Source: `MockGroupService.ListGroups` -/
def MockGroupService.ListGroups (mg : MockGroupService) :
    Option Turso.ListGroupResponse × Option Turso.Error :=
  (mg.ListGroupResponse, mg.Error)

/-- Source: `MockGroupService.CreateGroup` -/
def MockGroupService.CreateGroup (mg : MockGroupService) (_req : CreateGroupRequest) :
    Option Turso.CreateGroupResponse × Option Turso.Error :=
  (mg.CreateGroupResponse, mg.Error)

/-- Source: `MockGroupService.GetGroup` -/
def MockGroupService.GetGroup (mg : MockGroupService) (_groupName : String) :
    Option Turso.GetGroupResponse × Option Turso.Error :=
  (mg.GetGroupResponse, mg.Error)

/-- Source: `MockGroupService.DeleteGroup` -/
def MockGroupService.DeleteGroup (mg : MockGroupService) (_groupName : String) :
    Option Turso.DeleteGroupResponse × Option Turso.Error :=
  (mg.DeleteGroupResponse, mg.Error)

/-- Source: `MockGroupService.AddLocation` -/
def MockGroupService.AddLocation (mg : MockGroupService) (_req : GroupLocationRequest) :
    Option Turso.GroupLocationResponse × Option Turso.Error :=
  (mg.GroupLocationResponse, mg.Error)

/-- Source: `MockGroupService.RemoveLocation` -/
def MockGroupService.RemoveLocation (mg : MockGroupService) (_req : GroupLocationRequest) :
    Option Turso.GroupLocationResponse × Option Turso.Error :=
  (mg.GroupLocationResponse, mg.Error)

/-- Source: `MockDatabaseService.ListDatabases` -/
def MockDatabaseService.ListDatabases (md : MockDatabaseService) :
    Option Turso.ListDatabaseResponse × Option Turso.Error :=
  (md.ListDatabaseResponse, md.Error)

/-- Source: `MockDatabaseService.CreateDatabase` -/
def MockDatabaseService.CreateDatabase (md : MockDatabaseService)
    (_req : CreateDatabaseRequest) :
    Option Turso.CreateDatabaseResponse × Option Turso.Error :=
  (md.CreateDatabaseResponse, md.Error)

/-- Source: `MockDatabaseService.GetDatabase` -/
def MockDatabaseService.GetDatabase (md : MockDatabaseService) (_dbName : String) :
    Option Turso.GetDatabaseResponse × Option Turso.Error :=
  (md.GetDatabaseResponse, md.Error)

/-- Source: `MockDatabaseService.DeleteDatabase` -/
def MockDatabaseService.DeleteDatabase (md : MockDatabaseService) (_dbName : String) :
    Option Turso.DeleteDatabaseResponse × Option Turso.Error :=
  (md.DeleteDatabaseResponse, md.Error)

/-- Source: `MockOrganizationService.ListOrganizations` -/
def MockOrganizationService.ListOrganizations (mo : MockOrganizationService) :
    Option (List Organization) × Option Turso.Error :=
  (mo.ListOrganizationsResponse, mo.Error)

/-- Source: `MockDatabaseTokensService.CreateDatabaseToken` -/
def MockDatabaseTokensService.CreateDatabaseToken (md : MockDatabaseTokensService)
    (_req : CreateDatabaseTokenRequest) :
    Option Turso.CreateDatabaseTokenResponse × Option Turso.Error :=
  (md.CreateDatabaseTokenResponse, md.Error)

/-- The client of `NewMockClient`, as far as it is filled in: its four
services. -/
structure MockClient where
  Group : MockGroupService
  Database : MockDatabaseService
  Organization : MockOrganizationService
  DatabaseTokens : MockDatabaseTokensService
  deriving DecidableEq, Repr

/-- Source: `NewMockClient` -/
def NewMockClient : MockClient :=
  { Group := newMockGroupService
    Database := newMockDatabaseService
    Organization := newMockOrganizationService
    DatabaseTokens := newMockDatabaseTokenService }

/-! ## The contract of an operation, in terms of its call of `DoRequest` -/

/-- The status contract of an operation with outcome `o` whose call of
`DoRequest` ran as `r`: whenever the call gave a response and no error and the
body decoded to `out`, the operation returns `given out` and no error if the
status is 200, and otherwise a nil response and a `TursoError` carrying the
status.  `given` is `some` for the operations that return the address of the
decoded value and the identity for those that return the decoded pointer. -/
def returnsDecoded {α β : Type} (r : Run (Option HttpResponse × Option Error))
    (decode : String → Except Error β) (given : β → Option α) (o : Outcome α) : Prop :=
  ∀ (resp : HttpResponse) (out : β),
    r.result = (some resp, none) → decode resp.Body = .ok out →
      (resp.StatusCode = 200 → o = .returned (given out) none) ∧
      (resp.StatusCode ≠ 200 →
        ∃ object method : String,
          o = .returned none (some (Error.TursoError object method resp.StatusCode)))

/-- The pass-through contract of an operation with outcome `o` whose call of
`DoRequest` ran as `r`: an error of the call is returned as it is with a nil
response, and so is an error of the decoder, whatever the status of the
response. -/
def passesErrorsThrough {α β : Type} (r : Run (Option HttpResponse × Option Error))
    (decode : String → Except Error β) (o : Outcome α) : Prop :=
  (∀ (resp : Option HttpResponse) (err : Error),
    r.result = (resp, some err) → o = .returned none (some err)) ∧
  (∀ (resp : HttpResponse) (err : Error),
    r.result = (some resp, none) → decode resp.Body = .error err →
      o = .returned none (some err))

/-! ## Facts about the regular expression of database names -/

theorem regexpCompile_regexName :
    regexpCompile regexName =
      .ok (.cat [.beginText, .plus (.charClass nameRanges), .endText]) := by
  rfl

theorem inRanges_nameRanges (c : Char) :
    inRanges nameRanges c = true ↔
      (('a' ≤ c ∧ c ≤ 'z') ∨ ('0' ≤ c ∧ c ≤ '9') ∨ c = '-') := by
  simp [inRanges, nameRanges]
  constructor
  · rintro (h | h | h)
    · exact Or.inl h
    · exact Or.inr (Or.inl h)
    · exact Or.inr (Or.inr (le_antisymm h.2 h.1))
  · rintro (h | h | h)
    · exact Or.inl h
    · exact Or.inr (Or.inl h)
    · subst h; exact Or.inr (Or.inr ⟨le_refl _, le_refl _⟩)

theorem repeatEnds_charClass (R : List (Char × Char)) :
    ∀ (fuel : Nat) (p : Cursor), p.ahead.length ≤ fuel →
      ((∃ q ∈ repeatEnds (Regexp.ends (.charClass R)) fuel p, q.ahead = []) ↔
        (p.ahead ≠ [] ∧ ∀ c ∈ p.ahead, inRanges R c = true)) := by
  intro fuel
  induction fuel with
  | zero =>
    intro p hp
    have : p.ahead = [] := List.length_eq_zero.mp (Nat.le_zero.mp hp)
    simp [repeatEnds, this]
  | succ fuel ih =>
    intro p hp
    obtain ⟨n, l⟩ := p
    cases l with
    | nil => simp [repeatEnds, Regexp.ends]
    | cons c cs =>
      by_cases hc : inRanges R c = true
      · have hlen : (Cursor.mk (n + 1) cs).ahead.length ≤ fuel := by
          simpa using hp
        have hrec := ih ⟨n + 1, cs⟩ hlen
        have hstep : (Regexp.charClass R).ends ⟨n, c :: cs⟩ = [⟨n + 1, cs⟩] := by
          simp [Regexp.ends, hc]
        rw [repeatEnds, hstep]
        simp only [List.flatMap_cons, List.flatMap_nil, List.append_nil, List.mem_cons,
          exists_eq_or_imp]
        rw [hrec]
        by_cases hcs : cs = []
        · simp [hcs, hc]
        · simp [hcs, hc]
      · have hstep : (Regexp.charClass R).ends ⟨n, c :: cs⟩ = [] := by
          simp [Regexp.ends, hc]
        rw [repeatEnds, hstep]
        simp [hc]

/-- The pattern of database names, started anywhere but at the beginning of
the text, matches nothing. -/
theorem searchFrom_nameRe_succ (l : List Char) :
    ∀ n : Nat,
      searchFrom (.cat [.beginText, .plus (.charClass nameRanges), .endText]) (n + 1) l
        = false := by
  induction l with
  | nil => intro n; simp [searchFrom, Regexp.ends, Regexp.endsSeq]
  | cons c cs ih =>
    intro n
    simp [searchFrom, Regexp.ends, Regexp.endsSeq, ih (n + 1)]

/-- The pattern of database names matches exactly the non-empty texts all of
whose characters are in the class. -/
theorem searchFrom_nameRe (l : List Char) :
    searchFrom (.cat [.beginText, .plus (.charClass nameRanges), .endText]) 0 l = true ↔
      (l ≠ [] ∧ ∀ c ∈ l, inRanges nameRanges c = true) := by
  have key : ∀ p : Cursor, p.passed = 0 →
      ((Regexp.cat [.beginText, .plus (.charClass nameRanges), .endText]).ends p ≠ [] ↔
        ∃ q ∈ repeatEnds (Regexp.ends (.charClass nameRanges)) (p.ahead.length + 1) p,
          q.ahead = []) := by
    intro p hp
    simp only [Regexp.ends, Regexp.endsSeq, hp, if_true, List.flatMap_cons, List.flatMap_nil,
      List.append_nil]
    constructor
    · intro h
      obtain ⟨q, hq⟩ := List.exists_mem_of_ne_nil _ h
      simp only [List.mem_flatMap] at hq
      obtain ⟨a, ha, hqa⟩ := hq
      refine ⟨a, ha, ?_⟩
      by_contra hne
      simp [hne] at hqa
    · rintro ⟨q, hq, hnil⟩
      apply List.ne_nil_of_mem (a := q)
      simp only [List.mem_flatMap]
      exact ⟨q, hq, by simp [hnil]⟩
  have hrep := fun p : Cursor =>
    repeatEnds_charClass nameRanges (p.ahead.length + 1) p (Nat.le_succ _)
  cases l with
  | nil =>
    have h1 := key ⟨0, []⟩ rfl
    have h2 := hrep ⟨0, []⟩
    rw [h2] at h1
    simp only [searchFrom, Bool.not_eq_true', List.isEmpty_eq_false, h1]
  | cons c cs =>
    have h1 := key ⟨0, c :: cs⟩ rfl
    have h2 := hrep ⟨0, c :: cs⟩
    rw [h2] at h1
    simp only [searchFrom, searchFrom_nameRe_succ, Bool.or_false, Bool.not_eq_true',
      List.isEmpty_eq_false, h1]

/-- A character of the class of database names takes one byte. -/
theorem utf8Size_of_inRanges (c : Char) (h : inRanges nameRanges c = true) :
    c.utf8Size = 1 := by
  have hz : c ≤ 'z' := by
    rcases (inRanges_nameRanges c).mp h with h | h | h
    · exact h.2
    · exact Nat.le_trans (show c.val.toNat ≤ '9'.val.toNat from h.2) (by decide)
    · subst h; decide
  have h1 : c.val.toNat ≤ 'z'.val.toNat := hz
  have h2 : c.val ≤ UInt32.ofNatCore 0x7F (by decide) := by
    show c.val.toNat ≤ 127
    exact Nat.le_trans h1 (by decide)
  unfold Char.utf8Size
  exact if_pos h2

/-- A text made of characters of the class has as many bytes as characters. -/
theorem utf8ByteSize_go_of_inRanges (l : List Char)
    (h : ∀ c ∈ l, inRanges nameRanges c = true) :
    String.utf8ByteSize.go l = l.length := by
  induction l with
  | nil => rfl
  | cons c cs ih =>
    have hc := utf8Size_of_inRanges c (h c (List.mem_cons_self _ _))
    have hcs := ih (fun d hd => h d (List.mem_cons_of_mem _ hd))
    show String.utf8ByteSize.go cs + c.utf8Size = cs.length + 1
    rw [hc, hcs]

theorem len_of_inRanges (s : String) (h : ∀ c ∈ s.data, inRanges nameRanges c = true) :
    len s = s.length := by
  obtain ⟨l⟩ := s
  exact utf8ByteSize_go_of_inRanges l h

/-! ## Database names -/

/-- C1: `validateDatabaseName name` returns no error exactly when `name` is
non-empty, each of its characters is a lowercase ASCII letter, a digit or a
dash, and its length is at most 32; for every other name it returns
`ErrInvalidDatabaseName`, so the error of the regexp compilation is never
returned. -/
theorem validateDatabaseName_spec (name : String) :
    (validateDatabaseName name = none ↔
      (name ≠ "" ∧
        (∀ c ∈ name.data, ('a' ≤ c ∧ c ≤ 'z') ∨ ('0' ≤ c ∧ c ≤ '9') ∨ c = '-') ∧
        name.length ≤ 32)) ∧
    (validateDatabaseName name = none ∨
      validateDatabaseName name = some Error.ErrInvalidDatabaseName) := by
  have hne : name ≠ "" ↔ name.data ≠ [] := by
    obtain ⟨l⟩ := name
    simp [String.ext_iff]
  have hcls : (∀ c ∈ name.data, inRanges nameRanges c = true) ↔
      (∀ c ∈ name.data, ('a' ≤ c ∧ c ≤ 'z') ∨ ('0' ≤ c ∧ c ≤ '9') ∨ c = '-') :=
    forall₂_congr (fun c _ => inRanges_nameRanges c)
  have hs := searchFrom_nameRe name.data
  by_cases hm :
      searchFrom (.cat [.beginText, .plus (.charClass nameRanges), .endText]) 0 name.data = true
  · have hall := (hs.mp hm).2
    have hlen := len_of_inRanges name hall
    by_cases h32 : name.length > 32
    · have hv : validateDatabaseName name = some Error.ErrInvalidDatabaseName := by
        simp [validateDatabaseName, regexpMatchString, regexpCompile_regexName, hm, hlen,
          maxNameLength, h32]
      rw [hv]
      exact ⟨⟨fun h => (by cases h), fun h => absurd h.2.2 (by omega)⟩, Or.inr rfl⟩
    · have hv : validateDatabaseName name = none := by
        simp [validateDatabaseName, regexpMatchString, regexpCompile_regexName, hm, hlen,
          maxNameLength, h32]
      rw [hv]
      exact ⟨⟨fun _ => ⟨hne.mpr (hs.mp hm).1, hcls.mp hall, by omega⟩, fun _ => rfl⟩,
        Or.inl rfl⟩
  · have hv : validateDatabaseName name = some Error.ErrInvalidDatabaseName := by
      simp [validateDatabaseName, regexpMatchString, regexpCompile_regexName, hm]
    rw [hv]
    exact ⟨⟨fun h => (by cases h),
      fun h => absurd (hs.mpr ⟨hne.mp h.1, hcls.mpr h.2.1⟩) hm⟩, Or.inr rfl⟩

/-! ## Groups -/

/-- Searching for the one-character text of a space is membership of the space. -/
theorem containsChars_space (l : List Char) :
    containsChars l [' '] = true ↔ ' ' ∈ l := by
  induction l with
  | nil => simp [containsChars, hasPrefixChars]
  | cons c cs ih =>
    simp only [containsChars, hasPrefixChars, Bool.and_true, Bool.or_eq_true, beq_iff_eq, ih,
      List.mem_cons]
    constructor
    · rintro (h | h)
      · exact Or.inl h.symm
      · exact Or.inr h
    · rintro (h | h)
      · exact Or.inl h.symm
      · exact Or.inr h

/-- What `validateLocation` does: it counts the bytes of the location. -/
theorem validateLocation_bytes (location : String) :
    validateLocation location =
      if location = "" then some (Error.MissingRequiredFieldError "location")
      else if location.utf8ByteSize = 3 then none
      else some (Error.InvalidFieldError "location" "must be 3 characters") := by
  unfold validateLocation len newMissingRequiredFieldError newInvalidFieldError
  by_cases h : location = ""
  · simp [h]
  · by_cases h3 : location.utf8ByteSize = 3 <;> simp [h, h3]

/-- A create request is accepted exactly when its name and its location are. -/
theorem validateGroupCreateRequest_iff_both (req : CreateGroupRequest) :
    validateGroupCreateRequest req = none ↔
      (validateGroupName req.Name = none ∧ validateLocation req.Location = none) := by
  unfold validateGroupCreateRequest
  cases validateGroupName req.Name with
  | some e => simp
  | none => cases validateLocation req.Location <;> simp

/-- C2: the location of one character `€`, which takes three bytes, is
accepted by `validateLocation`, and the location of three characters `zür`,
which takes four bytes, is rejected as not being 3 characters long. -/
theorem validateLocation_counts_bytes_not_characters :
    ("€".length = 1 ∧ validateLocation "€" = none) ∧
    ("zür".length = 3 ∧
      validateLocation "zür" =
        some (Error.InvalidFieldError "location" "must be 3 characters")) := by
  decide

/-- C3: `validateGroupName name` is the missing-field error for `name` when
the name is empty, the invalid-field error `spaces are not allowed` when the
name is not empty and has a space among its characters, and no error
otherwise. -/
theorem validateGroupName_spec (name : String) :
    validateGroupName name =
      if name = "" then some (Error.MissingRequiredFieldError "name")
      else if ' ' ∈ name.data then
        some (Error.InvalidFieldError "name" "spaces are not allowed")
      else none := by
  have hsp : stringsContains name " " = true ↔ ' ' ∈ name.data := by
    unfold stringsContains
    exact containsChars_space name.data
  unfold validateGroupName newMissingRequiredFieldError newInvalidFieldError
  by_cases h : name = ""
  · simp [h]
  · by_cases hs : ' ' ∈ name.data
    · simp [h, hs, hsp.mpr hs]
    · have : stringsContains name " " = false := by
        cases hc : stringsContains name " " with
        | false => rfl
        | true => exact absurd (hsp.mp hc) hs
      simp [h, hs, this]

/-- C4: `validateGroupCreateRequest req` is the error of `validateGroupName`
on the name when there is one and the result of `validateLocation` on the
location otherwise; so whenever the name is invalid the error is one of the
two errors about the field `name`, the extensions play no part, and the
request is accepted exactly when both the name and the location are. -/
theorem validateGroupCreateRequest_spec (req : CreateGroupRequest) :
    (validateGroupCreateRequest req =
      match validateGroupName req.Name with
      | some err => some err
      | none => validateLocation req.Location) ∧
    (validateGroupName req.Name = none ∨
      validateGroupCreateRequest req = some (Error.MissingRequiredFieldError "name") ∨
      validateGroupCreateRequest req =
        some (Error.InvalidFieldError "name" "spaces are not allowed")) ∧
    (∀ extensions : String,
      validateGroupCreateRequest { req with Extensions := extensions } =
        validateGroupCreateRequest req) ∧
    (validateGroupCreateRequest req = none ↔
      (validateGroupName req.Name = none ∧ validateLocation req.Location = none)) := by
  have hname := validateGroupName_spec req.Name
  refine ⟨?_, ?_, fun _ => rfl, ?_⟩
  · unfold validateGroupCreateRequest
    cases validateGroupName req.Name with
    | some e => rfl
    | none => cases validateLocation req.Location <;> rfl
  · unfold validateGroupCreateRequest
    by_cases h : req.Name = ""
    · rw [hname]; simp [h]
    · by_cases hs : ' ' ∈ req.Name.data
      · rw [hname]; simp [h, hs]
      · rw [hname]; simp [h, hs]
  · unfold validateGroupCreateRequest
    cases validateGroupName req.Name with
    | some e => simp
    | none => cases validateLocation req.Location <;> simp

/-- C5: `validateLocationRequest` returns the missing-field error for `name`
when the group name is empty, whatever the location; the missing-field error
for `location` when the group name is not empty and the location is; and no
error whenever both are non-empty. -/
theorem validateLocationRequest_spec (groupName location : String) :
    validateLocationRequest ⟨"", location⟩ = some (Error.MissingRequiredFieldError "name") ∧
    (groupName ≠ "" →
      validateLocationRequest ⟨groupName, ""⟩ =
        some (Error.MissingRequiredFieldError "location")) ∧
    (groupName ≠ "" → location ≠ "" → validateLocationRequest ⟨groupName, location⟩ = none) := by
  refine ⟨?_, ?_, ?_⟩
  · simp [validateLocationRequest, newMissingRequiredFieldError]
  · intro h
    simp [validateLocationRequest, newMissingRequiredFieldError, h]
  · intro h1 h2
    simp [validateLocationRequest, h1, h2]

theorem validateLocationRequest_spec_witness :
    validateLocationRequest ⟨"meow", ""⟩ = some (Error.MissingRequiredFieldError "location") ∧
    validateLocationRequest ⟨"meow", "a location"⟩ = none :=
  ⟨(validateLocationRequest_spec "meow" "a location").2.1 (by decide),
    (validateLocationRequest_spec "meow" "a location").2.2 (by decide) (by decide)⟩

/-! ## Database tokens -/

/-- C6: `isValidAuthorization a` is true exactly for `full-access` and
`read-only`; it is false for the empty string and for the variants of the two
values in another letter case or with blanks around them. -/
theorem isValidAuthorization_spec (a : String) :
    (isValidAuthorization a = true ↔ (a = "full-access" ∨ a = "read-only")) ∧
    isValidAuthorization "" = false ∧
    isValidAuthorization "Full-Access" = false ∧
    isValidAuthorization "READ-ONLY" = false ∧
    isValidAuthorization " read-only" = false ∧
    isValidAuthorization "full-access " = false := by
  refine ⟨?_, by decide, by decide, by decide, by decide, by decide⟩
  unfold isValidAuthorization validAuthorization FullAccess ReadOnly
  by_cases h : a = ""
  · subst h; decide
  · simp only [h, if_false, authorizationLoop]
    by_cases h1 : "full-access" = a
    · subst h1; simp
    · by_cases h2 : "read-only" = a
      · subst h2; simp
      · have h1' : ¬ a = "full-access" := fun e => h1 e.symm
        have h2' : ¬ a = "read-only" := fun e => h2 e.symm
        simp [h1, h2, h1', h2']

/-- C7: whatever the duration parser does, `isValidExpiration` is false for
the empty string and true for `never`; for every other string it is true
exactly when the parser returns no error. -/
theorem isValidExpiration_spec (ParseDuration : String → Option Error) (e : String) :
    isValidExpiration ParseDuration "" = false ∧
    isValidExpiration ParseDuration "never" = true ∧
    (e ≠ "" → e ≠ "never" →
      (isValidExpiration ParseDuration e = true ↔ ParseDuration e = none)) := by
  refine ⟨?_, ?_, ?_⟩
  · simp [isValidExpiration]
  · have : ¬ ("never" = "") := by decide
    simp [isValidExpiration, DefaultExpiration, this]
  · intro h1 h2
    unfold isValidExpiration DefaultExpiration
    simp only [h1, h2, if_false]
    cases ParseDuration e <;> simp

theorem isValidExpiration_spec_witness :
    (isValidExpiration (fun s => if s = "12w" then none else some (Error.external "bad")) "12w"
        = true ↔
      (fun s => if s = "12w" then none else some (Error.external "bad")) "12w" = none) :=
  (isValidExpiration_spec
    (fun s => if s = "12w" then none else some (Error.external "bad")) "12w").2.2
    (by decide) (by decide)

/-- C8: with the duration parser of the library, `12w` and `1h30m` are valid
expirations and the date `2030-01-01` is not. -/
theorem isValidExpiration_examples :
    isValidExpiration str2durationParseDuration "12w" = true ∧
    isValidExpiration str2durationParseDuration "1h30m" = true ∧
    isValidExpiration str2durationParseDuration "2030-01-01" = false := by
  decide

/-- C9: `validateDatabaseTokenRequest` returns `ErrExpirationInvalid` when the
expiration is not valid, whatever the authorization is; `ErrAuthorizationInvalid`
when the expiration is valid and the authorization is not; and no error
exactly when both are valid. -/
theorem validateDatabaseTokenRequest_spec (ParseDuration : String → Option Error)
    (req : CreateDatabaseTokenRequest) :
    (validateDatabaseTokenRequest ParseDuration req =
      if isValidExpiration ParseDuration req.Expiration = false then
        some Error.ErrExpirationInvalid
      else if isValidAuthorization req.Authorization = false then
        some Error.ErrAuthorizationInvalid
      else none) ∧
    (validateDatabaseTokenRequest ParseDuration req = none ↔
      (isValidExpiration ParseDuration req.Expiration = true ∧
        isValidAuthorization req.Authorization = true)) := by
  unfold validateDatabaseTokenRequest
  cases isValidExpiration ParseDuration req.Expiration <;>
    cases isValidAuthorization req.Authorization <;> simp

/-! ## Validation comes before the network -/

/-- C10: when the validator of an operation rejects the request, the operation
returns a nil response with the error of the validator and hands no request to
the transport, whatever the transport and the other collaborators are. -/
theorem rejected_request_is_not_sent (ext : Externals) (c : Client) :
    (∀ (db : CreateDatabaseRequest) (err : Error),
      validateDatabaseName db.Name = some err →
        DatabaseService.CreateDatabase ext c db = ⟨.returned none (some err), []⟩) ∧
    (∀ (group : CreateGroupRequest) (err : Error),
      validateGroupCreateRequest group = some err →
        GroupService.CreateGroup ext c group = ⟨.returned none (some err), []⟩) ∧
    (∀ (req : GroupLocationRequest) (err : Error),
      validateLocationRequest req = some err →
        GroupService.AddLocation ext c req = ⟨.returned none (some err), []⟩) ∧
    (∀ (req : GroupLocationRequest) (err : Error),
      validateLocationRequest req = some err →
        GroupService.RemoveLocation ext c req = ⟨.returned none (some err), []⟩) ∧
    (∀ (req : CreateDatabaseTokenRequest) (err : Error),
      validateDatabaseTokenRequest ext.ParseDuration req = some err →
        DatabaseTokensService.CreateDatabaseToken ext c req =
          ⟨.returned none (some err), []⟩) := by
  refine ⟨?_, ?_, ?_, ?_, ?_⟩
  · intro db err h
    simp only [DatabaseService.CreateDatabase, h]
  · intro group err h
    simp only [GroupService.CreateGroup, h]
  · intro req err h
    simp only [GroupService.AddLocation, h]
  · intro req err h
    simp only [GroupService.RemoveLocation, h]
  · intro req err h
    simp only [DatabaseTokensService.CreateDatabaseToken, h]

theorem rejected_request_is_not_sent_witness :
    validateDatabaseName "myAWESOMEdb" = some Error.ErrInvalidDatabaseName ∧
    DatabaseService.CreateDatabase strictExternals
        ⟨⟨"token", "http://localhost", "org"⟩,
          MockHTTPRequestDoer.Do (some ⟨200, "{}"⟩) none⟩
        ⟨"", false, "myAWESOMEdb"⟩ =
      ⟨.returned none (some Error.ErrInvalidDatabaseName), []⟩ :=
  ⟨by decide,
    (rejected_request_is_not_sent strictExternals
      ⟨⟨"token", "http://localhost", "org"⟩,
        MockHTTPRequestDoer.Do (some ⟨200, "{}"⟩) none⟩).1
      ⟨"", false, "myAWESOMEdb"⟩ Error.ErrInvalidDatabaseName (by decide)⟩

/-- A request that passes validation, serializes and is accepted by `net/http`
is handed to the transport exactly once. -/
theorem accepted_request_is_sent_once (ext : Externals) (c : Client)
    (db : CreateDatabaseRequest) (buf : String)
    (hvalid : validateDatabaseName db.Name = none)
    (hbuf : ext.Marshal (.createDatabase db) = .ok buf)
    (hreq : ext.NewRequestError "POST" (getDatabaseEndpoint c.cfg.BaseURL c.cfg.OrgName) = none) :
    (DatabaseService.CreateDatabase ext c db).sent.length = 1 := by
  simp only [DatabaseService.CreateDatabase, hvalid, Client.DoRequest, hbuf,
    NewRequestWithContext, hreq, finish]
  split <;> try rfl
  split <;> try rfl
  split <;> rfl

/-! ## Facts about `fmt.Sprintf` and the endpoints -/

theorem sprintfChars_nil : sprintfChars [] [] = [] := by
  rw [sprintfChars]

theorem sprintfChars_str (rest : List Char) (s : String) (args : List FmtArg) :
    sprintfChars ('%' :: 's' :: rest) (.str s :: args) = s.data ++ sprintfChars rest args := by
  rw [sprintfChars]

theorem sprintfChars_int (rest : List Char) (i : Int) (args : List FmtArg) :
    sprintfChars ('%' :: 'd' :: rest) (.int i :: args) =
      (toString i).data ++ sprintfChars rest args := by
  rw [sprintfChars]

theorem sprintfChars_lit (c : Char) (h : c ≠ '%') (rest : List Char) (args : List FmtArg) :
    sprintfChars (c :: rest) args = c :: sprintfChars rest args := by
  rw [sprintfChars]
  all_goals (intros; simp_all)

theorem getOrganizationEndpoint_eq (baseURL : String) :
    getOrganizationEndpoint baseURL = baseURL ++ "/v1/organizations" := by
  simp [getOrganizationEndpoint, organizationEndpoint, Sprintf, sprintfChars_str,
    sprintfChars_lit, sprintfChars_nil, String.ext_iff]

theorem getDatabaseEndpoint_eq (baseURL orgName : String) :
    getDatabaseEndpoint baseURL orgName =
      baseURL ++ "/v1/organizations/" ++ orgName ++ "/databases" := by
  simp [getDatabaseEndpoint, Sprintf, databaseEndpoint, sprintfChars_str, sprintfChars_lit,
    sprintfChars_nil, String.ext_iff]

theorem getGroupEndpoint_eq (baseURL orgName : String) :
    getGroupEndpoint baseURL orgName =
      baseURL ++ "/v1/organizations/" ++ orgName ++ "/groups" := by
  simp [getGroupEndpoint, Sprintf, groupEndpoint, sprintfChars_str, sprintfChars_lit,
    sprintfChars_nil, String.ext_iff]

theorem sprintf_slash (a b : String) :
    Sprintf "%s/%s" [.str a, .str b] = a ++ "/" ++ b := by
  simp [Sprintf, sprintfChars_str, sprintfChars_lit, sprintfChars_nil, String.ext_iff]

/-- What `getGroupLocationsEndpoint` computes: the group name follows `groups`
with no slash between them. -/
theorem getGroupLocationsEndpoint_eq (baseURL orgName groupName locationName : String) :
    getGroupLocationsEndpoint baseURL orgName groupName locationName =
      baseURL ++ "/v1/organizations/" ++ orgName ++ "/groups" ++ groupName ++ "/locations/" ++
        locationName := by
  simp [getGroupLocationsEndpoint, Sprintf, locationEndpoint, groupEndpoint, sprintfChars_str,
    sprintfChars_lit, sprintfChars_nil, String.ext_iff]

theorem databaseTokenURL_eq (baseURL orgName dbName expiration authorization : String) :
    Sprintf "%s?expiration=%s&authorization=%s"
        [.str (getDatabaseTokensEndpoint baseURL orgName dbName), .str expiration,
          .str authorization] =
      baseURL ++ "/v1/organizations/" ++ orgName ++ "/databases/" ++ dbName ++
        "/auth/tokens?expiration=" ++ expiration ++ "&authorization=" ++ authorization := by
  simp [getDatabaseTokensEndpoint, Sprintf, databaseTokensEndpoint, sprintfChars_str,
    sprintfChars_lit, sprintfChars_nil, String.ext_iff]

/-! ## Facts about `DoRequest` and the shared part of the operations -/

/-- The request `DoRequest` builds from a serialized body when `net/http`
accepts the method and the URL, and what it returns. -/
theorem DoRequest_eq (ext : Externals) (c : Client) (method url : String) (data : Payload)
    (buf : String) (hbuf : ext.Marshal data = .ok buf)
    (hreq : ext.NewRequestError method url = none) :
    c.DoRequest ext method url data =
      ⟨c.client ⟨if method = "" then "GET" else method, url,
          [("Authorization", ["Bearer " ++ c.cfg.Token]),
            ("Content-Type", ["application/json"])], buf⟩,
        [⟨if method = "" then "GET" else method, url,
          [("Authorization", ["Bearer " ++ c.cfg.Token]),
            ("Content-Type", ["application/json"])], buf⟩]⟩ := by
  have hkey : ¬ ("Authorization" = "Content-Type") := by decide
  simp [Client.DoRequest, hbuf, NewRequestWithContext, hreq, headerAdd, hkey]

theorem finish_sent {α : Type} (decode : String → Except Error α) (object method : String)
    (r : Run (Option HttpResponse × Option Error)) :
    (finish decode object method r).sent = r.sent := by
  unfold finish
  split <;> try rfl
  split <;> try rfl
  split <;> rfl

theorem returnsDecoded_finish {α : Type} (decode : String → Except Error α)
    (object method : String) (r : Run (Option HttpResponse × Option Error)) :
    returnsDecoded r decode some (finish decode object method r).result := by
  intro resp out hr hd
  simp only [finish, hr, hd, newBadRequestError]
  by_cases h : resp.StatusCode = 200
  · simp [h]
  · simp only [ne_eq, h, not_false_eq_true, if_true]
    exact ⟨fun h200 => h200.elim, fun _ => ⟨object, method, rfl⟩⟩

theorem returnsDecoded_finishPointer {α : Type} (decode : String → Except Error (Option α))
    (object method : String) (r : Run (Option HttpResponse × Option Error)) :
    returnsDecoded r decode id (finishPointer decode object method r).result := by
  intro resp out hr hd
  simp only [finishPointer, hr, hd, newBadRequestError]
  by_cases h : resp.StatusCode = 200
  · simp [h]
  · simp only [ne_eq, h, not_false_eq_true, if_true]
    exact ⟨fun h200 => h200.elim, fun _ => ⟨object, method, rfl⟩⟩

theorem passesErrorsThrough_finish {α : Type} (decode : String → Except Error α)
    (object method : String) (r : Run (Option HttpResponse × Option Error)) :
    passesErrorsThrough r decode (finish decode object method r).result := by
  constructor
  · intro resp err hr
    simp only [finish, hr]
  · intro resp err hr hd
    simp only [finish, hr, hd]

theorem passesErrorsThrough_finishPointer {α : Type}
    (decode : String → Except Error (Option α)) (object method : String)
    (r : Run (Option HttpResponse × Option Error)) :
    passesErrorsThrough r decode (finishPointer decode object method r).result := by
  constructor
  · intro resp err hr
    simp only [finishPointer, hr]
  · intro resp err hr hd
    simp only [finishPointer, hr, hd]

/-! ## Status, subject and action of the error of a failed request -/

/-- C11: for each of the twelve operations, when the request passes validation,
the call of `DoRequest` gives a response and no error, and the body decodes:
the operation returns the decoded value and no error if the status is 200, and
a nil response and a `TursoError` whose status is the status of the response
for every other status. -/
theorem operations_return_decoded_or_status_error (ext : Externals) (c : Client) :
    returnsDecoded (c.DoRequest ext "GET" (getOrganizationEndpoint c.cfg.BaseURL) .nil)
      ext.DecodeOrganizations some (OrganizationService.ListOrganizations ext c).result ∧
    returnsDecoded
      (c.DoRequest ext "GET" (getDatabaseEndpoint c.cfg.BaseURL c.cfg.OrgName) .nil)
      ext.DecodeListDatabaseResponse some (DatabaseService.ListDatabases ext c).result ∧
    (∀ db : CreateDatabaseRequest, validateDatabaseName db.Name = none →
      returnsDecoded
        (c.DoRequest ext "POST" (getDatabaseEndpoint c.cfg.BaseURL c.cfg.OrgName)
          (.createDatabase db))
        ext.DecodeCreateDatabaseResponse some
        (DatabaseService.CreateDatabase ext c db).result) ∧
    (∀ dbName : String,
      returnsDecoded
        (c.DoRequest ext "GET"
          (Sprintf "%s/%s" [.str (getDatabaseEndpoint c.cfg.BaseURL c.cfg.OrgName), .str dbName])
          .nil)
        ext.DecodeGetDatabaseResponse id (DatabaseService.GetDatabase ext c dbName).result) ∧
    (∀ dbName : String,
      returnsDecoded
        (c.DoRequest ext "DELETE"
          (Sprintf "%s/%s" [.str (getDatabaseEndpoint c.cfg.BaseURL c.cfg.OrgName), .str dbName])
          .nil)
        ext.DecodeDeleteDatabaseResponse some
        (DatabaseService.DeleteDatabase ext c dbName).result) ∧
    returnsDecoded (c.DoRequest ext "GET" (getGroupEndpoint c.cfg.BaseURL c.cfg.OrgName) .nil)
      ext.DecodeListGroupResponse some (GroupService.ListGroups ext c).result ∧
    (∀ group : CreateGroupRequest, validateGroupCreateRequest group = none →
      returnsDecoded
        (c.DoRequest ext "POST" (getGroupEndpoint c.cfg.BaseURL c.cfg.OrgName)
          (.createGroup group))
        ext.DecodeCreateGroupResponse some (GroupService.CreateGroup ext c group).result) ∧
    (∀ groupName : String,
      returnsDecoded
        (c.DoRequest ext "GET"
          (Sprintf "%s/%s" [.str (getGroupEndpoint c.cfg.BaseURL c.cfg.OrgName), .str groupName])
          .nil)
        ext.DecodeGetGroupResponse id (GroupService.GetGroup ext c groupName).result) ∧
    (∀ groupName : String,
      returnsDecoded
        (c.DoRequest ext "DELETE"
          (Sprintf "%s/%s" [.str (getGroupEndpoint c.cfg.BaseURL c.cfg.OrgName), .str groupName])
          .nil)
        ext.DecodeDeleteGroupResponse some (GroupService.DeleteGroup ext c groupName).result) ∧
    (∀ req : GroupLocationRequest, validateLocationRequest req = none →
      returnsDecoded
        (c.DoRequest ext "POST"
          (getGroupLocationsEndpoint c.cfg.BaseURL c.cfg.OrgName req.GroupName req.Location)
          .nil)
        ext.DecodeGroupLocationResponse some (GroupService.AddLocation ext c req).result) ∧
    (∀ req : GroupLocationRequest, validateLocationRequest req = none →
      returnsDecoded
        (c.DoRequest ext "DELETE"
          (getGroupLocationsEndpoint c.cfg.BaseURL c.cfg.OrgName req.GroupName req.Location)
          .nil)
        ext.DecodeGroupLocationResponse some (GroupService.RemoveLocation ext c req).result) ∧
    (∀ req : CreateDatabaseTokenRequest,
      validateDatabaseTokenRequest ext.ParseDuration req = none →
      returnsDecoded
        (c.DoRequest ext "POST"
          (Sprintf "%s?expiration=%s&authorization=%s"
            [.str (getDatabaseTokensEndpoint c.cfg.BaseURL c.cfg.OrgName req.DatabaseName),
              .str req.Expiration, .str req.Authorization])
          (.createDatabaseToken req))
        ext.DecodeCreateDatabaseTokenResponse some
        (DatabaseTokensService.CreateDatabaseToken ext c req).result) := by
  refine ⟨?_, ?_, ?_, ?_, ?_, ?_, ?_, ?_, ?_, ?_, ?_, ?_⟩
  · exact returnsDecoded_finish _ _ _ _
  · exact returnsDecoded_finish _ _ _ _
  · intro db hv
    simp only [DatabaseService.CreateDatabase, hv]
    exact returnsDecoded_finish _ _ _ _
  · intro dbName
    exact returnsDecoded_finishPointer _ _ _ _
  · intro dbName
    exact returnsDecoded_finish _ _ _ _
  · exact returnsDecoded_finish _ _ _ _
  · intro group hv
    simp only [GroupService.CreateGroup, hv]
    exact returnsDecoded_finish _ _ _ _
  · intro groupName
    exact returnsDecoded_finishPointer _ _ _ _
  · intro groupName
    exact returnsDecoded_finish _ _ _ _
  · intro req hv
    simp only [GroupService.AddLocation, hv]
    exact returnsDecoded_finish _ _ _ _
  · intro req hv
    simp only [GroupService.RemoveLocation, hv]
    exact returnsDecoded_finish _ _ _ _
  · intro req hv
    simp only [DatabaseTokensService.CreateDatabaseToken, hv]
    exact returnsDecoded_finish _ _ _ _

theorem operations_return_decoded_or_status_error_witness :
    (DatabaseService.CreateDatabase zeroExternals
        ⟨⟨"token", "http://localhost", "org"⟩,
          MockHTTPRequestDoer.Do (some ⟨200, "{}"⟩) none⟩
        ⟨"", false, "my-db"⟩).result =
      .returned (some ⟨⟨"", "", "", 0, 0⟩⟩) none :=
  ((operations_return_decoded_or_status_error zeroExternals
      ⟨⟨"token", "http://localhost", "org"⟩,
        MockHTTPRequestDoer.Do (some ⟨200, "{}"⟩) none⟩).2.2.1
    ⟨"", false, "my-db"⟩ (by decide) ⟨200, "{}"⟩ ⟨⟨"", "", "", 0, 0⟩⟩ rfl rfl).1 rfl

/-- C12: against a transport that answers 400 with a well-formed body,
`AddLocation`, `RemoveLocation` and `CreateGroup` return one and the same
error, the `TursoError` with object `group` and method `creating`: the error
of adding or removing a location does not name the adding or the removing. -/
theorem location_errors_name_creating_group :
    (GroupService.AddLocation zeroExternals
        ⟨⟨"token", "http://localhost", "org"⟩,
          MockHTTPRequestDoer.Do (some ⟨400, "{}"⟩) none⟩
        ⟨"meow", "den"⟩).result =
      .returned none (some (Error.TursoError "group" "creating" 400)) ∧
    (GroupService.RemoveLocation zeroExternals
        ⟨⟨"token", "http://localhost", "org"⟩,
          MockHTTPRequestDoer.Do (some ⟨400, "{}"⟩) none⟩
        ⟨"meow", "den"⟩).result =
      .returned none (some (Error.TursoError "group" "creating" 400)) ∧
    (GroupService.CreateGroup zeroExternals
        ⟨⟨"token", "http://localhost", "org"⟩,
          MockHTTPRequestDoer.Do (some ⟨400, "{}"⟩) none⟩
        ⟨"", "ams", "meow"⟩).result =
      .returned none (some (Error.TursoError "group" "creating" 400)) := by
  refine ⟨?_, ?_, ?_⟩ <;> rfl

/-! ## The URLs of the requests -/

/-- C13: for the base URL `http://localhost`, the organization `org`, the
group `meow` and the location `den`, `getGroupLocationsEndpoint` gives a URL in
which `groups` and the group name run together, not the URL with a slash
between them. -/
theorem getGroupLocationsEndpoint_runs_group_name_on :
    getGroupLocationsEndpoint "http://localhost" "org" "meow" "den" =
      "http://localhost/v1/organizations/org/groupsmeow/locations/den" ∧
    getGroupLocationsEndpoint "http://localhost" "org" "meow" "den" ≠
      "http://localhost" ++ "/v1/organizations/" ++ "org" ++ "/groups/" ++ "meow" ++
        "/locations/" ++ "den" := by
  decide

/-- C14: for a request that passes validation, `CreateDatabaseToken` calls
`DoRequest` with the method `POST`, the request itself as the body value and
the URL made of the base URL, `/v1/organizations/`, the organization,
`/databases/`, the database name, `/auth/tokens?expiration=`, the expiration,
`&authorization=` and the authorization, each inserted as it is; when the body
serializes and `net/http` accepts the URL, that is the one request handed to
the transport. -/
theorem CreateDatabaseToken_request (ext : Externals) (c : Client)
    (req : CreateDatabaseTokenRequest)
    (hvalid : validateDatabaseTokenRequest ext.ParseDuration req = none) :
    DatabaseTokensService.CreateDatabaseToken ext c req =
      finish ext.DecodeCreateDatabaseTokenResponse "database token" "creating"
        (c.DoRequest ext "POST"
          (c.cfg.BaseURL ++ "/v1/organizations/" ++ c.cfg.OrgName ++ "/databases/" ++
            req.DatabaseName ++ "/auth/tokens?expiration=" ++ req.Expiration ++
            "&authorization=" ++ req.Authorization)
          (.createDatabaseToken req)) ∧
    (∀ buf : String, ext.Marshal (.createDatabaseToken req) = .ok buf →
      ext.NewRequestError "POST"
          (c.cfg.BaseURL ++ "/v1/organizations/" ++ c.cfg.OrgName ++ "/databases/" ++
            req.DatabaseName ++ "/auth/tokens?expiration=" ++ req.Expiration ++
            "&authorization=" ++ req.Authorization) = none →
      (DatabaseTokensService.CreateDatabaseToken ext c req).sent =
        [⟨"POST",
          c.cfg.BaseURL ++ "/v1/organizations/" ++ c.cfg.OrgName ++ "/databases/" ++
            req.DatabaseName ++ "/auth/tokens?expiration=" ++ req.Expiration ++
            "&authorization=" ++ req.Authorization,
          [("Authorization", ["Bearer " ++ c.cfg.Token]),
            ("Content-Type", ["application/json"])], buf⟩]) := by
  have hop : DatabaseTokensService.CreateDatabaseToken ext c req =
      finish ext.DecodeCreateDatabaseTokenResponse "database token" "creating"
        (c.DoRequest ext "POST"
          (c.cfg.BaseURL ++ "/v1/organizations/" ++ c.cfg.OrgName ++ "/databases/" ++
            req.DatabaseName ++ "/auth/tokens?expiration=" ++ req.Expiration ++
            "&authorization=" ++ req.Authorization)
          (.createDatabaseToken req)) := by
    simp only [DatabaseTokensService.CreateDatabaseToken, hvalid, databaseTokenURL_eq]
  refine ⟨hop, ?_⟩
  intro buf hbuf hreq
  rw [hop, finish_sent, DoRequest_eq ext c _ _ _ buf hbuf hreq]
  simp

theorem CreateDatabaseToken_request_witness :
    (DatabaseTokensService.CreateDatabaseToken zeroExternals
        ⟨⟨"token", "http://localhost", "org"⟩,
          MockHTTPRequestDoer.Do (some ⟨200, "{}"⟩) none⟩
        ⟨"my-db", "1h30m", "full-access", ⟨[]⟩⟩).sent =
      [⟨"POST",
        "http://localhost" ++ "/v1/organizations/" ++ "org" ++ "/databases/" ++ "my-db" ++
          "/auth/tokens?expiration=" ++ "1h30m" ++ "&authorization=" ++ "full-access",
        [("Authorization", ["Bearer " ++ "token"]), ("Content-Type", ["application/json"])],
        "{}"⟩] :=
  (CreateDatabaseToken_request zeroExternals
    ⟨⟨"token", "http://localhost", "org"⟩,
      MockHTTPRequestDoer.Do (some ⟨200, "{}"⟩) none⟩
    ⟨"my-db", "1h30m", "full-access", ⟨[]⟩⟩ (by decide)).2 "{}" rfl rfl

/-- C15: the URLs of the other operations.  `ListDatabases` (GET) and
`CreateDatabase` (POST) call `DoRequest` with the base URL followed by
`/v1/organizations/`, the organization and `/databases`; `GetDatabase` (GET)
and `DeleteDatabase` (DELETE) with that URL followed by `/` and the name;
`ListGroups`, `CreateGroup`, `GetGroup` and `DeleteGroup` likewise with
`/groups`; `ListOrganizations` (GET) with the base URL followed by
`/v1/organizations`.  The organization and the names are inserted as they
are. -/
theorem operation_urls (ext : Externals) (c : Client) :
    DatabaseService.ListDatabases ext c =
      finish ext.DecodeListDatabaseResponse "databases" "listing"
        (c.DoRequest ext "GET"
          (c.cfg.BaseURL ++ "/v1/organizations/" ++ c.cfg.OrgName ++ "/databases") .nil) ∧
    (∀ db : CreateDatabaseRequest, validateDatabaseName db.Name = none →
      DatabaseService.CreateDatabase ext c db =
        finish ext.DecodeCreateDatabaseResponse "database" "creating"
          (c.DoRequest ext "POST"
            (c.cfg.BaseURL ++ "/v1/organizations/" ++ c.cfg.OrgName ++ "/databases")
            (.createDatabase db))) ∧
    (∀ dbName : String,
      DatabaseService.GetDatabase ext c dbName =
        finishPointer ext.DecodeGetDatabaseResponse "database" "getting"
          (c.DoRequest ext "GET"
            (c.cfg.BaseURL ++ "/v1/organizations/" ++ c.cfg.OrgName ++ "/databases" ++ "/" ++
              dbName) .nil)) ∧
    (∀ dbName : String,
      DatabaseService.DeleteDatabase ext c dbName =
        finish ext.DecodeDeleteDatabaseResponse "database" "deleting"
          (c.DoRequest ext "DELETE"
            (c.cfg.BaseURL ++ "/v1/organizations/" ++ c.cfg.OrgName ++ "/databases" ++ "/" ++
              dbName) .nil)) ∧
    GroupService.ListGroups ext c =
      finish ext.DecodeListGroupResponse "groups" "listing"
        (c.DoRequest ext "GET"
          (c.cfg.BaseURL ++ "/v1/organizations/" ++ c.cfg.OrgName ++ "/groups") .nil) ∧
    (∀ group : CreateGroupRequest, validateGroupCreateRequest group = none →
      GroupService.CreateGroup ext c group =
        finish ext.DecodeCreateGroupResponse "group" "creating"
          (c.DoRequest ext "POST"
            (c.cfg.BaseURL ++ "/v1/organizations/" ++ c.cfg.OrgName ++ "/groups")
            (.createGroup group))) ∧
    (∀ groupName : String,
      GroupService.GetGroup ext c groupName =
        finishPointer ext.DecodeGetGroupResponse "group" "getting"
          (c.DoRequest ext "GET"
            (c.cfg.BaseURL ++ "/v1/organizations/" ++ c.cfg.OrgName ++ "/groups" ++ "/" ++
              groupName) .nil)) ∧
    (∀ groupName : String,
      GroupService.DeleteGroup ext c groupName =
        finish ext.DecodeDeleteGroupResponse "group" "deleting"
          (c.DoRequest ext "DELETE"
            (c.cfg.BaseURL ++ "/v1/organizations/" ++ c.cfg.OrgName ++ "/groups" ++ "/" ++
              groupName) .nil)) ∧
    OrganizationService.ListOrganizations ext c =
      finish ext.DecodeOrganizations "organizations" "listing"
        (c.DoRequest ext "GET" (c.cfg.BaseURL ++ "/v1/organizations") .nil) := by
  refine ⟨?_, ?_, ?_, ?_, ?_, ?_, ?_, ?_, ?_⟩
  · simp only [DatabaseService.ListDatabases, getDatabaseEndpoint_eq]
  · intro db hv
    simp only [DatabaseService.CreateDatabase, hv, getDatabaseEndpoint_eq]
  · intro dbName
    simp only [DatabaseService.GetDatabase, getDatabaseEndpoint_eq, sprintf_slash]
  · intro dbName
    simp only [DatabaseService.DeleteDatabase, getDatabaseEndpoint_eq, sprintf_slash]
  · simp only [GroupService.ListGroups, getGroupEndpoint_eq]
  · intro group hv
    simp only [GroupService.CreateGroup, hv, getGroupEndpoint_eq]
  · intro groupName
    simp only [GroupService.GetGroup, getGroupEndpoint_eq, sprintf_slash]
  · intro groupName
    simp only [GroupService.DeleteGroup, getGroupEndpoint_eq, sprintf_slash]
  · simp only [OrganizationService.ListOrganizations, getOrganizationEndpoint_eq]

theorem operation_urls_witness :
    DatabaseService.CreateDatabase zeroExternals
        ⟨⟨"token", "http://localhost", "org"⟩,
          MockHTTPRequestDoer.Do (some ⟨200, "{}"⟩) none⟩
        ⟨"", false, "my-db"⟩ =
      finish zeroExternals.DecodeCreateDatabaseResponse "database" "creating"
        (Client.DoRequest zeroExternals
          ⟨⟨"token", "http://localhost", "org"⟩,
            MockHTTPRequestDoer.Do (some ⟨200, "{}"⟩) none⟩
          "POST" ("http://localhost" ++ "/v1/organizations/" ++ "org" ++ "/databases")
          (.createDatabase ⟨"", false, "my-db"⟩)) :=
  (operation_urls zeroExternals
    ⟨⟨"token", "http://localhost", "org"⟩,
      MockHTTPRequestDoer.Do (some ⟨200, "{}"⟩) none⟩).2.1
    ⟨"", false, "my-db"⟩ (by decide)

/-! ## Construction of the client -/

/-- C16: `NewClient c` returns a nil client and `ErrAPITokenNotSet` when the
token is empty, and otherwise a client whose configuration is `c` and no
error; a configuration with the same token and any other base URL and
organization has the same error and a client exactly when `c` has one. -/
theorem NewClient_spec (DefaultClient : HttpRequest → Option HttpResponse × Option Error)
    (c : Config) :
    (c.Token = "" → NewClient DefaultClient c = (none, some Error.ErrAPITokenNotSet)) ∧
    (c.Token ≠ "" →
      ∃ client : Client, NewClient DefaultClient c = (some client, none) ∧ client.cfg = c) ∧
    (∀ baseURL orgName : String,
      (NewClient DefaultClient ⟨c.Token, baseURL, orgName⟩).2 = (NewClient DefaultClient c).2 ∧
      (NewClient DefaultClient ⟨c.Token, baseURL, orgName⟩).1.isSome =
        (NewClient DefaultClient c).1.isSome) := by
  refine ⟨?_, ?_, ?_⟩
  · intro h
    simp [NewClient, h]
  · intro h
    exact ⟨⟨c, DefaultClient⟩, by simp [NewClient, h], rfl⟩
  · intro baseURL orgName
    by_cases h : c.Token = "" <;> simp [NewClient, h]

theorem NewClient_spec_witness :
    NewClient (MockHTTPRequestDoer.Do none none) ⟨"", "http://localhost", "org"⟩ =
        (none, some Error.ErrAPITokenNotSet) ∧
    ∃ client : Client,
      NewClient (MockHTTPRequestDoer.Do none none) ⟨"token", "", ""⟩ = (some client, none) ∧
        client.cfg = ⟨"token", "", ""⟩ :=
  ⟨(NewClient_spec (MockHTTPRequestDoer.Do none none) ⟨"", "http://localhost", "org"⟩).1 rfl,
    (NewClient_spec (MockHTTPRequestDoer.Do none none) ⟨"token", "", ""⟩).2.1 (by decide)⟩

/-- C17, as the code has it: for a configuration with a token, the client of
`NewClient` keeps the base URL of the configuration as it is, empty or not,
and `ListOrganizations` calls `DoRequest` with that base URL followed by
`/v1/organizations`. -/
theorem NewClient_keeps_BaseURL
    (DefaultClient : HttpRequest → Option HttpResponse × Option Error) (c : Config)
    (htoken : c.Token ≠ "") :
    ∃ client : Client,
      NewClient DefaultClient c = (some client, none) ∧
      client.cfg.BaseURL = c.BaseURL ∧
      ∀ ext : Externals,
        OrganizationService.ListOrganizations ext client =
          finish ext.DecodeOrganizations "organizations" "listing"
            (client.DoRequest ext "GET" (c.BaseURL ++ "/v1/organizations") .nil) := by
  refine ⟨⟨c, DefaultClient⟩, by simp [NewClient, htoken], rfl, ?_⟩
  intro ext
  simp only [OrganizationService.ListOrganizations, getOrganizationEndpoint_eq]

theorem NewClient_keeps_BaseURL_witness :
    ∃ client : Client,
      NewClient (MockHTTPRequestDoer.Do (some ⟨200, "[]"⟩) none) ⟨"token", "", "org"⟩ =
        (some client, none) ∧
      client.cfg.BaseURL = "" ∧
      ∀ ext : Externals,
        OrganizationService.ListOrganizations ext client =
          finish ext.DecodeOrganizations "organizations" "listing"
            (client.DoRequest ext "GET" ("" ++ "/v1/organizations") .nil) :=
  NewClient_keeps_BaseURL (MockHTTPRequestDoer.Do (some ⟨200, "[]"⟩) none)
    ⟨"token", "", "org"⟩ (by decide)

/-- C17, as it is stated, fails: the client made from a configuration with a
token and an empty base URL has the empty base URL, and its
`ListOrganizations` sends its request to `/v1/organizations`, not to
`https://api.turso.tech/v1/organizations`. -/
theorem NewClient_applies_no_default_BaseURL :
    (NewClient (MockHTTPRequestDoer.Do (some ⟨200, "[]"⟩) none) ⟨"token", "", "org"⟩).1.map
        (fun client => client.cfg.BaseURL) = some "" ∧
    (NewClient (MockHTTPRequestDoer.Do (some ⟨200, "[]"⟩) none) ⟨"token", "", "org"⟩).1.map
        (fun client =>
          (OrganizationService.ListOrganizations zeroExternals client).sent.map
            (fun r => r.URL)) = some ["/v1/organizations"] ∧
    "/v1/organizations" ≠ "https://api.turso.tech/v1/organizations" := by
  decide

/-! ## The request executor -/

/-- C18, as the code has it, for every method, URL and body value.  When the
body value serializes and `net/http` accepts the method and the URL,
`DoRequest` hands the transport one request, with the URL, the header
`Authorization` with the one value `Bearer ` and the token, the header
`Content-Type` with the one value `application/json` and the serialized body,
and returns what the transport returns for it; the method of that request is
the given method when it is not empty, and `GET` when it is empty.  When the
body value serializes and `net/http` rejects the method or the URL, and when
the body value does not serialize, nothing is handed to the transport and
that error is returned with a nil response. -/
theorem DoRequest_spec (ext : Externals) (c : Client) (method url : String) (data : Payload) :
    (∀ buf : String, method ≠ "" → ext.Marshal data = .ok buf →
      ext.NewRequestError method url = none →
        c.DoRequest ext method url data =
          ⟨c.client ⟨method, url,
              [("Authorization", ["Bearer " ++ c.cfg.Token]),
                ("Content-Type", ["application/json"])], buf⟩,
            [⟨method, url,
              [("Authorization", ["Bearer " ++ c.cfg.Token]),
                ("Content-Type", ["application/json"])], buf⟩]⟩) ∧
    (∀ buf : String, ext.Marshal data = .ok buf → ext.NewRequestError "" url = none →
      c.DoRequest ext "" url data =
        ⟨c.client ⟨"GET", url,
            [("Authorization", ["Bearer " ++ c.cfg.Token]),
              ("Content-Type", ["application/json"])], buf⟩,
          [⟨"GET", url,
            [("Authorization", ["Bearer " ++ c.cfg.Token]),
              ("Content-Type", ["application/json"])], buf⟩]⟩) ∧
    (∀ (buf : String) (err : Error), ext.Marshal data = .ok buf →
      ext.NewRequestError method url = some err →
        c.DoRequest ext method url data = ⟨(none, some err), []⟩) ∧
    (∀ err : Error, ext.Marshal data = .error err →
      c.DoRequest ext method url data = ⟨(none, some err), []⟩) := by
  refine ⟨?_, ?_, ?_, ?_⟩
  · intro buf hmethod hbuf hreq
    rw [DoRequest_eq ext c method url data buf hbuf hreq]
    simp only [hmethod, if_false]
  · intro buf hbuf hreq
    rw [DoRequest_eq ext c "" url data buf hbuf hreq]
    simp only [if_true]
  · intro buf err hbuf hreq
    simp only [Client.DoRequest, hbuf, NewRequestWithContext, hreq]
  · intro err hbuf
    simp only [Client.DoRequest, hbuf]

theorem DoRequest_spec_witness :
    Client.DoRequest zeroExternals
        ⟨⟨"token", "http://localhost", "org"⟩,
          MockHTTPRequestDoer.Do (some ⟨200, "{}"⟩) none⟩
        "DELETE" "http://localhost/v1/organizations/org/groups/meow" .nil =
      ⟨(some ⟨200, "{}"⟩, none),
        [⟨"DELETE", "http://localhost/v1/organizations/org/groups/meow",
          [("Authorization", ["Bearer " ++ "token"]), ("Content-Type", ["application/json"])],
          "null"⟩]⟩ ∧
    Client.DoRequest zeroExternals
        ⟨⟨"token", "http://localhost", "org"⟩,
          MockHTTPRequestDoer.Do (some ⟨200, "{}"⟩) none⟩
        "" "http://localhost/v1/organizations" .nil =
      ⟨(some ⟨200, "{}"⟩, none),
        [⟨"GET", "http://localhost/v1/organizations",
          [("Authorization", ["Bearer " ++ "token"]), ("Content-Type", ["application/json"])],
          "null"⟩]⟩ ∧
    Client.DoRequest
        { zeroExternals with
          NewRequestError := fun method _ =>
            if method = "bad method" then some (Error.external "net/http: invalid method")
            else none }
        ⟨⟨"token", "http://localhost", "org"⟩,
          MockHTTPRequestDoer.Do (some ⟨200, "{}"⟩) none⟩
        "bad method" "http://localhost/v1/organizations" .nil =
      ⟨(none, some (Error.external "net/http: invalid method")), []⟩ ∧
    Client.DoRequest
        { zeroExternals with
          Marshal := fun _ => .error (Error.external "json: unsupported value") }
        ⟨⟨"token", "http://localhost", "org"⟩,
          MockHTTPRequestDoer.Do (some ⟨200, "{}"⟩) none⟩
        "POST" "http://localhost/v1/organizations/org/groups"
        (.createGroup ⟨"", "ams", "meow"⟩) =
      ⟨(none, some (Error.external "json: unsupported value")), []⟩ :=
  ⟨(DoRequest_spec zeroExternals
      ⟨⟨"token", "http://localhost", "org"⟩,
        MockHTTPRequestDoer.Do (some ⟨200, "{}"⟩) none⟩
      "DELETE" "http://localhost/v1/organizations/org/groups/meow" .nil).1
      "null" (by decide) rfl rfl,
    (DoRequest_spec zeroExternals
      ⟨⟨"token", "http://localhost", "org"⟩,
        MockHTTPRequestDoer.Do (some ⟨200, "{}"⟩) none⟩
      "" "http://localhost/v1/organizations" .nil).2.1 "null" rfl rfl,
    (DoRequest_spec
      { zeroExternals with
        NewRequestError := fun method _ =>
          if method = "bad method" then some (Error.external "net/http: invalid method")
          else none }
      ⟨⟨"token", "http://localhost", "org"⟩,
        MockHTTPRequestDoer.Do (some ⟨200, "{}"⟩) none⟩
      "bad method" "http://localhost/v1/organizations" .nil).2.2.1
      "null" (Error.external "net/http: invalid method") rfl rfl,
    (DoRequest_spec
      { zeroExternals with
        Marshal := fun _ => .error (Error.external "json: unsupported value") }
      ⟨⟨"token", "http://localhost", "org"⟩,
        MockHTTPRequestDoer.Do (some ⟨200, "{}"⟩) none⟩
      "POST" "http://localhost/v1/organizations/org/groups"
      (.createGroup ⟨"", "ams", "meow"⟩)).2.2.2
      (Error.external "json: unsupported value") rfl⟩

/-- C18, as it is stated, fails for the empty method: the request that
`DoRequest` hands to the transport has the method `GET`; and for a method that
`net/http` rejects no request is handed to the transport and the error
returned is the one of `net/http`, though the transport would have answered. -/
theorem DoRequest_empty_method_is_GET :
    (Client.DoRequest zeroExternals
        ⟨⟨"token", "http://localhost", "org"⟩,
          MockHTTPRequestDoer.Do (some ⟨200, "{}"⟩) none⟩
        "" "http://localhost/v1/organizations" .nil).sent.map (fun r => r.Method) = ["GET"] ∧
    "GET" ≠ "" ∧
    (Client.DoRequest
        { zeroExternals with
          NewRequestError := fun method _ =>
            if method = "bad method" then some (Error.external "net/http: invalid method")
            else none }
        ⟨⟨"token", "http://localhost", "org"⟩,
          MockHTTPRequestDoer.Do (some ⟨200, "{}"⟩) none⟩
        "bad method" "http://localhost/v1/organizations" .nil) =
      ⟨(none, some (Error.external "net/http: invalid method")), []⟩ := by
  refine ⟨by decide, by decide, rfl⟩

/-! ## Errors of the transport and of the decoder -/

/-- C19: for each of the twelve operations, when the request passes
validation, an error of the call of `DoRequest` is returned as it is with a
nil response, and when the call gives a response and no error, an error of
the decoder is returned as it is with a nil response, whatever the status of
the response. -/
theorem operations_pass_errors_through (ext : Externals) (c : Client) :
    passesErrorsThrough (c.DoRequest ext "GET" (getOrganizationEndpoint c.cfg.BaseURL) .nil)
      ext.DecodeOrganizations (OrganizationService.ListOrganizations ext c).result ∧
    passesErrorsThrough
      (c.DoRequest ext "GET" (getDatabaseEndpoint c.cfg.BaseURL c.cfg.OrgName) .nil)
      ext.DecodeListDatabaseResponse (DatabaseService.ListDatabases ext c).result ∧
    (∀ db : CreateDatabaseRequest, validateDatabaseName db.Name = none →
      passesErrorsThrough
        (c.DoRequest ext "POST" (getDatabaseEndpoint c.cfg.BaseURL c.cfg.OrgName)
          (.createDatabase db))
        ext.DecodeCreateDatabaseResponse (DatabaseService.CreateDatabase ext c db).result) ∧
    (∀ dbName : String,
      passesErrorsThrough
        (c.DoRequest ext "GET"
          (Sprintf "%s/%s" [.str (getDatabaseEndpoint c.cfg.BaseURL c.cfg.OrgName), .str dbName])
          .nil)
        ext.DecodeGetDatabaseResponse (DatabaseService.GetDatabase ext c dbName).result) ∧
    (∀ dbName : String,
      passesErrorsThrough
        (c.DoRequest ext "DELETE"
          (Sprintf "%s/%s" [.str (getDatabaseEndpoint c.cfg.BaseURL c.cfg.OrgName), .str dbName])
          .nil)
        ext.DecodeDeleteDatabaseResponse (DatabaseService.DeleteDatabase ext c dbName).result) ∧
    passesErrorsThrough
      (c.DoRequest ext "GET" (getGroupEndpoint c.cfg.BaseURL c.cfg.OrgName) .nil)
      ext.DecodeListGroupResponse (GroupService.ListGroups ext c).result ∧
    (∀ group : CreateGroupRequest, validateGroupCreateRequest group = none →
      passesErrorsThrough
        (c.DoRequest ext "POST" (getGroupEndpoint c.cfg.BaseURL c.cfg.OrgName)
          (.createGroup group))
        ext.DecodeCreateGroupResponse (GroupService.CreateGroup ext c group).result) ∧
    (∀ groupName : String,
      passesErrorsThrough
        (c.DoRequest ext "GET"
          (Sprintf "%s/%s" [.str (getGroupEndpoint c.cfg.BaseURL c.cfg.OrgName), .str groupName])
          .nil)
        ext.DecodeGetGroupResponse (GroupService.GetGroup ext c groupName).result) ∧
    (∀ groupName : String,
      passesErrorsThrough
        (c.DoRequest ext "DELETE"
          (Sprintf "%s/%s" [.str (getGroupEndpoint c.cfg.BaseURL c.cfg.OrgName), .str groupName])
          .nil)
        ext.DecodeDeleteGroupResponse (GroupService.DeleteGroup ext c groupName).result) ∧
    (∀ req : GroupLocationRequest, validateLocationRequest req = none →
      passesErrorsThrough
        (c.DoRequest ext "POST"
          (getGroupLocationsEndpoint c.cfg.BaseURL c.cfg.OrgName req.GroupName req.Location)
          .nil)
        ext.DecodeGroupLocationResponse (GroupService.AddLocation ext c req).result) ∧
    (∀ req : GroupLocationRequest, validateLocationRequest req = none →
      passesErrorsThrough
        (c.DoRequest ext "DELETE"
          (getGroupLocationsEndpoint c.cfg.BaseURL c.cfg.OrgName req.GroupName req.Location)
          .nil)
        ext.DecodeGroupLocationResponse (GroupService.RemoveLocation ext c req).result) ∧
    (∀ req : CreateDatabaseTokenRequest,
      validateDatabaseTokenRequest ext.ParseDuration req = none →
      passesErrorsThrough
        (c.DoRequest ext "POST"
          (Sprintf "%s?expiration=%s&authorization=%s"
            [.str (getDatabaseTokensEndpoint c.cfg.BaseURL c.cfg.OrgName req.DatabaseName),
              .str req.Expiration, .str req.Authorization])
          (.createDatabaseToken req))
        ext.DecodeCreateDatabaseTokenResponse
        (DatabaseTokensService.CreateDatabaseToken ext c req).result) := by
  refine ⟨?_, ?_, ?_, ?_, ?_, ?_, ?_, ?_, ?_, ?_, ?_, ?_⟩
  · exact passesErrorsThrough_finish _ _ _ _
  · exact passesErrorsThrough_finish _ _ _ _
  · intro db hv
    simp only [DatabaseService.CreateDatabase, hv]
    exact passesErrorsThrough_finish _ _ _ _
  · intro dbName
    exact passesErrorsThrough_finishPointer _ _ _ _
  · intro dbName
    exact passesErrorsThrough_finish _ _ _ _
  · exact passesErrorsThrough_finish _ _ _ _
  · intro group hv
    simp only [GroupService.CreateGroup, hv]
    exact passesErrorsThrough_finish _ _ _ _
  · intro groupName
    exact passesErrorsThrough_finishPointer _ _ _ _
  · intro groupName
    exact passesErrorsThrough_finish _ _ _ _
  · intro req hv
    simp only [GroupService.AddLocation, hv]
    exact passesErrorsThrough_finish _ _ _ _
  · intro req hv
    simp only [GroupService.RemoveLocation, hv]
    exact passesErrorsThrough_finish _ _ _ _
  · intro req hv
    simp only [DatabaseTokensService.CreateDatabaseToken, hv]
    exact passesErrorsThrough_finish _ _ _ _

theorem operations_pass_errors_through_witness :
    (DatabaseService.CreateDatabase strictExternals
        ⟨⟨"token", "http://localhost", "org"⟩,
          MockHTTPRequestDoer.Do none (some (Error.external "connection refused"))⟩
        ⟨"", false, "my-db"⟩).result =
      .returned none (some (Error.external "connection refused")) ∧
    (DatabaseService.CreateDatabase strictExternals
        ⟨⟨"token", "http://localhost", "org"⟩,
          MockHTTPRequestDoer.Do (some ⟨400, "not json"⟩) none⟩
        ⟨"", false, "my-db"⟩).result =
      .returned none (some (Error.external "EOF")) :=
  ⟨((operations_pass_errors_through strictExternals
      ⟨⟨"token", "http://localhost", "org"⟩,
        MockHTTPRequestDoer.Do none (some (Error.external "connection refused"))⟩).2.2.1
      ⟨"", false, "my-db"⟩ (by decide)).1 none (Error.external "connection refused") rfl,
    ((operations_pass_errors_through strictExternals
      ⟨⟨"token", "http://localhost", "org"⟩,
        MockHTTPRequestDoer.Do (some ⟨400, "not json"⟩) none⟩).2.2.1
      ⟨"", false, "my-db"⟩ (by decide)).2 ⟨400, "not json"⟩ (Error.external "EOF") rfl rfl⟩

/-! ## The messages of the errors -/

/-- C20: the message of `MissingRequiredFieldError{f}` is `f` followed by
` is required`; that of `InvalidFieldError{f, m}` is `f`, ` is invalid, ` and
`m`; that of `TursoError{o, m, s}` is `error `, `m`, a blank, `o`, `: ` and `s`
in decimal; and the three constructors keep their arguments in the fields of
the same names. -/
theorem Error_messages (f m o : String) (status : Int) :
    (Error.MissingRequiredFieldError f).Error = f ++ " is required" ∧
    (Error.InvalidFieldError f m).Error = f ++ " is invalid, " ++ m ∧
    (Error.TursoError o m status).Error =
      "error " ++ m ++ " " ++ o ++ ": " ++ toString status ∧
    (Error.TursoError "database" "creating" 400).Error = "error creating database: 400" ∧
    newMissingRequiredFieldError f = Error.MissingRequiredFieldError f ∧
    newInvalidFieldError f m = Error.InvalidFieldError f m ∧
    newBadRequestError o m status = Error.TursoError o m status := by
  refine ⟨?_, ?_, ?_, by decide, rfl, rfl, rfl⟩
  · simp [Error.Error, Sprintf, sprintfChars_str, sprintfChars_lit, sprintfChars_nil,
      String.ext_iff]
  · simp [Error.Error, Sprintf, sprintfChars_str, sprintfChars_lit, sprintfChars_nil,
      String.ext_iff]
  · simp [Error.Error, Sprintf, sprintfChars_str, sprintfChars_int, sprintfChars_lit,
      sprintfChars_nil, String.ext_iff]

/-! ## The mock services -/

/-- C21: every operation of the four mock services returns the response and
the error stored in the mock, whatever it is called with; the mocks of
`NewMockClient` store no error, so each of their operations returns a response
and no error for every input: `ListDatabases` one database, `GetDatabase` the
database `my-db` for every name, `DeleteGroup` the archived group `woof` for
every name, and `CreateDatabase` a response also for a name that
`validateDatabaseName` rejects. -/
theorem mock_services_return_what_they_store (mg : MockGroupService)
    (md : MockDatabaseService) (mo : MockOrganizationService)
    (mt : MockDatabaseTokensService) (name : String) (group : CreateGroupRequest)
    (loc : GroupLocationRequest) (db : CreateDatabaseRequest)
    (token : CreateDatabaseTokenRequest) :
    (mg.ListGroups = (mg.ListGroupResponse, mg.Error) ∧
      mg.CreateGroup group = (mg.CreateGroupResponse, mg.Error) ∧
      mg.GetGroup name = (mg.GetGroupResponse, mg.Error) ∧
      mg.DeleteGroup name = (mg.DeleteGroupResponse, mg.Error) ∧
      mg.AddLocation loc = (mg.GroupLocationResponse, mg.Error) ∧
      mg.RemoveLocation loc = (mg.GroupLocationResponse, mg.Error)) ∧
    (md.ListDatabases = (md.ListDatabaseResponse, md.Error) ∧
      md.CreateDatabase db = (md.CreateDatabaseResponse, md.Error) ∧
      md.GetDatabase name = (md.GetDatabaseResponse, md.Error) ∧
      md.DeleteDatabase name = (md.DeleteDatabaseResponse, md.Error)) ∧
    mo.ListOrganizations = (mo.ListOrganizationsResponse, mo.Error) ∧
    mt.CreateDatabaseToken token = (mt.CreateDatabaseTokenResponse, mt.Error) ∧
    (NewMockClient.Group.Error = none ∧ NewMockClient.Database.Error = none ∧
      NewMockClient.Organization.Error = none ∧ NewMockClient.DatabaseTokens.Error = none) ∧
    ((NewMockClient.Group.ListGroups.1.isSome = true ∧ NewMockClient.Group.ListGroups.2 = none) ∧
      ((NewMockClient.Group.CreateGroup group).1.isSome = true ∧
        (NewMockClient.Group.CreateGroup group).2 = none) ∧
      ((NewMockClient.Group.GetGroup name).1.isSome = true ∧
        (NewMockClient.Group.GetGroup name).2 = none) ∧
      ((NewMockClient.Group.DeleteGroup name).1.isSome = true ∧
        (NewMockClient.Group.DeleteGroup name).2 = none) ∧
      ((NewMockClient.Group.AddLocation loc).1.isSome = true ∧
        (NewMockClient.Group.AddLocation loc).2 = none) ∧
      ((NewMockClient.Group.RemoveLocation loc).1.isSome = true ∧
        (NewMockClient.Group.RemoveLocation loc).2 = none) ∧
      (NewMockClient.Database.ListDatabases.1.isSome = true ∧
        NewMockClient.Database.ListDatabases.2 = none) ∧
      ((NewMockClient.Database.CreateDatabase db).1.isSome = true ∧
        (NewMockClient.Database.CreateDatabase db).2 = none) ∧
      ((NewMockClient.Database.GetDatabase name).1.isSome = true ∧
        (NewMockClient.Database.GetDatabase name).2 = none) ∧
      ((NewMockClient.Database.DeleteDatabase name).1.isSome = true ∧
        (NewMockClient.Database.DeleteDatabase name).2 = none) ∧
      (NewMockClient.Organization.ListOrganizations.1.isSome = true ∧
        NewMockClient.Organization.ListOrganizations.2 = none) ∧
      ((NewMockClient.DatabaseTokens.CreateDatabaseToken token).1.isSome = true ∧
        (NewMockClient.DatabaseTokens.CreateDatabaseToken token).2 = none)) ∧
    (NewMockClient.Database.ListDatabases.1.map (fun r => r.Databases.length) = some 1 ∧
      (NewMockClient.Database.GetDatabase name).1.map
          (fun r => r.Database.map (fun d => d.Name)) = some (some "my-db") ∧
      (NewMockClient.Group.DeleteGroup name).1.map
          (fun r => (r.Group.Archived, r.Group.Name)) = some (true, "woof") ∧
      (validateDatabaseName "myAWESOMEdb" = some Error.ErrInvalidDatabaseName ∧
        (NewMockClient.Database.CreateDatabase ⟨"", false, "myAWESOMEdb"⟩).1.map
            (fun r => r.Database.Name) = some "my-db" ∧
        (NewMockClient.Database.CreateDatabase ⟨"", false, "myAWESOMEdb"⟩).2 = none)) := by
  refine ⟨⟨rfl, rfl, rfl, rfl, rfl, rfl⟩, ⟨rfl, rfl, rfl, rfl⟩, rfl, rfl, ⟨rfl, rfl, rfl, rfl⟩,
    ⟨⟨rfl, rfl⟩, ⟨rfl, rfl⟩, ⟨rfl, rfl⟩, ⟨rfl, rfl⟩, ⟨rfl, rfl⟩, ⟨rfl, rfl⟩, ⟨rfl, rfl⟩,
      ⟨rfl, rfl⟩, ⟨rfl, rfl⟩, ⟨rfl, rfl⟩, ⟨rfl, rfl⟩, ⟨rfl, rfl⟩⟩,
    ⟨rfl, rfl, rfl, by decide, rfl, rfl⟩⟩

/-! ## Group creation against adding and removing a location -/

/-- C22: a name and a location that `validateGroupCreateRequest` accepts are
accepted by `validateLocationRequest` as group name and location; the converse
fails for the group `meow` with the location `us` and for the group name
`my group` with the location `ams`, which `validateLocationRequest` accepts
and `validateGroupCreateRequest` rejects. -/
theorem group_creation_validates_more (name location extensions : String) :
    (validateGroupCreateRequest ⟨extensions, location, name⟩ = none →
      validateLocationRequest ⟨name, location⟩ = none) ∧
    (validateLocationRequest ⟨"meow", "us"⟩ = none ∧
      validateGroupCreateRequest ⟨extensions, "us", "meow"⟩ =
        some (Error.InvalidFieldError "location" "must be 3 characters")) ∧
    (validateLocationRequest ⟨"my group", "ams"⟩ = none ∧
      validateGroupCreateRequest ⟨extensions, "ams", "my group"⟩ =
        some (Error.InvalidFieldError "name" "spaces are not allowed")) := by
  refine ⟨?_, ⟨by decide, ?_⟩, ⟨by decide, ?_⟩⟩
  · intro h
    have hboth := (validateGroupCreateRequest_iff_both ⟨extensions, location, name⟩).mp h
    have hname : name ≠ "" := by
      intro hn
      have := hboth.1
      simp [validateGroupName, hn] at this
    have hloc : location ≠ "" := by
      intro hl
      have := hboth.2
      simp [validateLocation, hl] at this
    simp [validateLocationRequest, hname, hloc]
  · have h1 : validateGroupName "meow" = none := by decide
    have h2 : validateLocation "us" =
        some (Error.InvalidFieldError "location" "must be 3 characters") := by decide
    simp only [validateGroupCreateRequest, h1, h2]
  · have h1 : validateGroupName "my group" =
        some (Error.InvalidFieldError "name" "spaces are not allowed") := by decide
    simp only [validateGroupCreateRequest, h1]

theorem group_creation_validates_more_witness :
    validateGroupCreateRequest ⟨"", "ams", "meow"⟩ = none ∧
    validateLocationRequest ⟨"meow", "ams"⟩ = none :=
  ⟨by decide, (group_creation_validates_more "meow" "ams" "").1 (by decide)⟩

/-! ## The body of a request -/

theorem finishPointer_sent {α : Type} (decode : String → Except Error (Option α))
    (object method : String) (r : Run (Option HttpResponse × Option Error)) :
    (finishPointer decode object method r).sent = r.sent := by
  unfold finishPointer
  split <;> try rfl
  split <;> try rfl
  split <;> rfl

/-- The bodies of the requests `DoRequest` hands over: none, or the one
serialization of the data. -/
theorem DoRequest_sent_bodies (ext : Externals) (c : Client) (method url : String)
    (data : Payload) (buf : String) (hbuf : ext.Marshal data = .ok buf) :
    (c.DoRequest ext method url data).sent.map (fun r => r.Body) = [] ∨
      (c.DoRequest ext method url data).sent.map (fun r => r.Body) = [buf] := by
  cases hreq : ext.NewRequestError method url with
  | some err =>
    left
    simp [Client.DoRequest, hbuf, NewRequestWithContext, hreq]
  | none =>
    right
    rw [DoRequest_eq ext c method url data buf hbuf hreq]
    rfl

/-- C23, as the code has it: `DoRequest` serializes the data whether or not a
value is present.  The body of the request it hands to the transport is the
serialization of the data, for every data, nil included; so where the nil
value serializes to `null`, as it does with `encoding/json`, each of the nine
operations that pass nil sends the body `null` if it sends a request at
all. -/
theorem request_body_is_serialized_data (ext : Externals) (c : Client) :
    (∀ (method url : String) (data : Payload) (buf : String),
      ext.Marshal data = .ok buf → ext.NewRequestError method url = none →
        (c.DoRequest ext method url data).sent.map (fun r => r.Body) = [buf]) ∧
    (ext.Marshal .nil = .ok "null" →
      ((OrganizationService.ListOrganizations ext c).sent.map (fun r => r.Body) = [] ∨
        (OrganizationService.ListOrganizations ext c).sent.map (fun r => r.Body) = ["null"]) ∧
      ((DatabaseService.ListDatabases ext c).sent.map (fun r => r.Body) = [] ∨
        (DatabaseService.ListDatabases ext c).sent.map (fun r => r.Body) = ["null"]) ∧
      (∀ dbName : String,
        (DatabaseService.GetDatabase ext c dbName).sent.map (fun r => r.Body) = [] ∨
          (DatabaseService.GetDatabase ext c dbName).sent.map (fun r => r.Body) = ["null"]) ∧
      (∀ dbName : String,
        (DatabaseService.DeleteDatabase ext c dbName).sent.map (fun r => r.Body) = [] ∨
          (DatabaseService.DeleteDatabase ext c dbName).sent.map (fun r => r.Body) =
            ["null"]) ∧
      ((GroupService.ListGroups ext c).sent.map (fun r => r.Body) = [] ∨
        (GroupService.ListGroups ext c).sent.map (fun r => r.Body) = ["null"]) ∧
      (∀ groupName : String,
        (GroupService.GetGroup ext c groupName).sent.map (fun r => r.Body) = [] ∨
          (GroupService.GetGroup ext c groupName).sent.map (fun r => r.Body) = ["null"]) ∧
      (∀ groupName : String,
        (GroupService.DeleteGroup ext c groupName).sent.map (fun r => r.Body) = [] ∨
          (GroupService.DeleteGroup ext c groupName).sent.map (fun r => r.Body) = ["null"]) ∧
      (∀ req : GroupLocationRequest,
        (GroupService.AddLocation ext c req).sent.map (fun r => r.Body) = [] ∨
          (GroupService.AddLocation ext c req).sent.map (fun r => r.Body) = ["null"]) ∧
      (∀ req : GroupLocationRequest,
        (GroupService.RemoveLocation ext c req).sent.map (fun r => r.Body) = [] ∨
          (GroupService.RemoveLocation ext c req).sent.map (fun r => r.Body) = ["null"])) := by
  refine ⟨?_, ?_⟩
  · intro method url data buf hbuf hreq
    rw [DoRequest_eq ext c method url data buf hbuf hreq]
    rfl
  · intro hnil
    have hdo := fun method url => DoRequest_sent_bodies ext c method url .nil "null" hnil
    refine ⟨?_, ?_, ?_, ?_, ?_, ?_, ?_, ?_, ?_⟩
    · simp only [OrganizationService.ListOrganizations, finish_sent]
      exact hdo _ _
    · simp only [DatabaseService.ListDatabases, finish_sent]
      exact hdo _ _
    · intro dbName
      simp only [DatabaseService.GetDatabase, finishPointer_sent]
      exact hdo _ _
    · intro dbName
      simp only [DatabaseService.DeleteDatabase, finish_sent]
      exact hdo _ _
    · simp only [GroupService.ListGroups, finish_sent]
      exact hdo _ _
    · intro groupName
      simp only [GroupService.GetGroup, finishPointer_sent]
      exact hdo _ _
    · intro groupName
      simp only [GroupService.DeleteGroup, finish_sent]
      exact hdo _ _
    · intro req
      cases hv : validateLocationRequest req with
      | some err =>
        left
        simp only [GroupService.AddLocation, hv, List.map_nil]
      | none =>
        simp only [GroupService.AddLocation, hv, finish_sent]
        exact hdo _ _
    · intro req
      cases hv : validateLocationRequest req with
      | some err =>
        left
        simp only [GroupService.RemoveLocation, hv, List.map_nil]
      | none =>
        simp only [GroupService.RemoveLocation, hv, finish_sent]
        exact hdo _ _

theorem request_body_is_serialized_data_witness :
    (Client.DoRequest zeroExternals
        ⟨⟨"token", "http://localhost", "org"⟩,
          MockHTTPRequestDoer.Do (some ⟨200, "{}"⟩) none⟩
        "GET" "http://localhost/v1/organizations/org/groups" .nil).sent.map
      (fun r => r.Body) = ["null"] ∧
    ((GroupService.ListGroups zeroExternals
          ⟨⟨"token", "http://localhost", "org"⟩,
            MockHTTPRequestDoer.Do (some ⟨200, "{}"⟩) none⟩).sent.map
        (fun r => r.Body) = [] ∨
      (GroupService.ListGroups zeroExternals
          ⟨⟨"token", "http://localhost", "org"⟩,
            MockHTTPRequestDoer.Do (some ⟨200, "{}"⟩) none⟩).sent.map
        (fun r => r.Body) = ["null"]) :=
  ⟨(request_body_is_serialized_data zeroExternals
      ⟨⟨"token", "http://localhost", "org"⟩,
        MockHTTPRequestDoer.Do (some ⟨200, "{}"⟩) none⟩).1
      "GET" "http://localhost/v1/organizations/org/groups" .nil "null" rfl rfl,
    ((request_body_is_serialized_data zeroExternals
      ⟨⟨"token", "http://localhost", "org"⟩,
        MockHTTPRequestDoer.Do (some ⟨200, "{}"⟩) none⟩).2 rfl).2.2.2.2.1⟩

/-- C23, as it is stated, fails: with the nil value serialized to `null`, the
request that `ListDatabases` hands to the transport has the four characters
`null` as its body, not the empty body. -/
theorem ListDatabases_sends_null_body :
    (DatabaseService.ListDatabases zeroExternals
        ⟨⟨"token", "http://localhost", "org"⟩,
          MockHTTPRequestDoer.Do (some ⟨200, "{}"⟩) none⟩).sent.map (fun r => r.Body) =
      ["null"] ∧
    "null" ≠ "" := by
  decide

end Turso
